import Mathlib

/-!
go-llmaget: a verification development

A shallow embedding of the FF14 "石之家" automation bridge
(`services/ff14.go`, `config/config.go`, `models/models.go`, `main.go`).

Conventions of the embedding

* Go `string` values are Lean `String`s; the regular expressions of
  `ParsePlayTimeToMinutes` run over the runes of the string (`String.data`).
  A byte that is not valid UTF-8 decodes to a rune that matches neither a
  digit nor a unit character, like any other character of the text.
* Go `int` is the 64-bit two's-complement integer: values are `Int`, and every
  arithmetic result is reduced by `wrapInt`.
* A Go result `(value, error)` is a pair whose halves are `Option`s, `none`
  standing for `nil`.
* Stateful code passes a `World` explicitly; what the program receives from
  outside (network outcomes, UUIDs, the clock, file-write outcomes, the `sonic`
  codecs) is an `Env`.  The embedding is sequential: one operation runs at a
  time, the mutex of `AppState` is left out.
* `log.Printf` / `log.Println` have no effect on results and are left out.
-/

namespace Llmaget

/-! ## Machine integers and `strconv.Atoi` -/

/-- Largest Go `int` on a 64-bit platform, `1<<63 - 1`. -/
def maxInt : Int := 9223372036854775807

/-- Smallest Go `int` on a 64-bit platform, `-1<<63`. -/
def minInt : Int := -9223372036854775808

/-- Two's-complement reduction of a mathematical integer to Go's 64-bit `int`. -/
def wrapInt (x : Int) : Int :=
  (x + 9223372036854775808) % 18446744073709551616 - 9223372036854775808

/-- Value of one ASCII digit. -/
def digitVal (c : Char) : Nat := c.toNat - 48

/-- Base-10 value of a run of ASCII digits, most significant first. -/
def decimal (ds : List Char) : Nat :=
  ds.foldl (fun n c => 10 * n + digitVal c) 0

/-- The error half of a Go `(value, error)` pair: `none` is `nil`. -/
abbrev GoError := Option String

/-- Go's `strconv.Atoi` on a 64-bit platform: an optional sign followed by one
or more ASCII digits.  A syntax error yields `0`; a value outside the `int`
range yields the nearest bound (`maxInt` or `minInt`) together with a range
error. -/
def Atoi (s : List Char) : Int × GoError :=
  match s with
  | [] => (0, some "strconv.Atoi: invalid syntax")
  | c :: rest =>
    let neg : Bool := c == '-'
    let body : List Char := if c == '+' || c == '-' then rest else c :: rest
    if body.isEmpty || !(body.all Char.isDigit) then
      (0, some "strconv.Atoi: invalid syntax")
    else
      let un : Nat := decimal body
      if !neg && decide (9223372036854775808 ≤ un) then
        (maxInt, some "strconv.Atoi: value out of range")
      else if neg && decide (9223372036854775808 < un) then
        (minInt, some "strconv.Atoi: value out of range")
      else
        (if neg then -(un : Int) else (un : Int), none)

/-! ## The three regular expressions `(\d+)天`, `(\d+)小时`, `(\d+)分钟` -/

/-- Literal tail of `dayRe`, the pattern `(\d+)天`. -/
def dayRe : List Char := ['天']

/-- Literal tail of `hourRe`, the pattern `(\d+)小时`. -/
def hourRe : List Char := ['小', '时']

/-- Literal tail of `minRe`, the pattern `(\d+)分钟`. -/
def minRe : List Char := ['分', '钟']

/-- Greedy `\d+` with backtracking: try a digit run of length `k`, then shorter
ones, each followed by the literal `lit`; the first success gives capture
group 1. -/
def tryRun (lit s : List Char) : Nat → Option (List Char)
  | 0 => none
  | k + 1 =>
    if lit.isPrefixOf (s.drop (k + 1)) then some (s.take (k + 1))
    else tryRun lit s k

/-- Match of `(\d+)lit` anchored at the start of `s`: the digit run is as long
as possible first (`\d` is ASCII `0-9` in Go's RE2 syntax). -/
def matchHere (lit s : List Char) : Option (List Char) :=
  tryRun lit s (s.takeWhile Char.isDigit).length

/-- Go's `Regexp.FindStringSubmatch` for the pattern `(\d+)lit`, reduced to
capture group 1 of the leftmost match (`none` when `len(matches) > 1` fails). -/
def FindStringSubmatch (lit : List Char) : List Char → Option (List Char)
  | [] => none
  | c :: cs =>
    match matchHere lit (c :: cs) with
    | some g => some g
    | none => FindStringSubmatch lit cs

/-- The function `ParsePlayTimeToMinutes` of `services/ff14.go`: the error of `strconv.Atoi`
is discarded and its value used. -/
def ParsePlayTimeToMinutes (playTime : String) : Int :=
  let totalMinutes : Int := 0
  let totalMinutes :=
    match FindStringSubmatch dayRe playTime.data with
    | some m =>
      let days := (Atoi m).1
      wrapInt (totalMinutes + wrapInt (wrapInt (days * 24) * 60))
    | none => totalMinutes
  let totalMinutes :=
    match FindStringSubmatch hourRe playTime.data with
    | some m =>
      let hours := (Atoi m).1
      wrapInt (totalMinutes + wrapInt (hours * 60))
    | none => totalMinutes
  let totalMinutes :=
    match FindStringSubmatch minRe playTime.data with
    | some m =>
      let mins := (Atoi m).1
      wrapInt (totalMinutes + mins)
    | none => totalMinutes
  totalMinutes

/-- The function `GetAreaName` of `services/ff14.go`. -/
def GetAreaName (serverName : String) : String :=
  match serverName with
  | "n" | "鸟" | "陆行鸟" => "陆行鸟"
  | "m" | "猫" | "猫小胖" => "猫小胖"
  | "g" | "狗" | "豆豆柴" => "豆豆柴"
  | "z" | "猪" | "莫古力" => "莫古力"
  | _ => ""


/-! ## Data model (`config/config.go`, `models/models.go`) -/

/-- Go `[]byte`. -/
abbrev Bytes := List UInt8

def ConfigFile : String := "config.json"

def OutputFile : String := "response.json"

def Scheme : String := "https"

def BaseURL : String := "apiff14risingstones.web.sdo.com"

def UserInfoPath : String := "/api/home/userInfo/getUserInfo"

def SignRewardsPath : String := "/api/home/sign/signRewardList"

def GetSignRewardPath : String := "/api/home/sign/getSignReward"

def BindInfoPath : String := "/api/home/groupAndRole/getCharacterBindInfo"

def SignInPath : String := "/api/home/sign/signIn"

def SearchUserPath : String := "/api/common/search"

/-- The struct `config.Config`. -/
structure Config where
  UserAgent : String
  Cookie : String
  deriving DecidableEq, Repr

/-- A `time.Time`, reduced to what the program reads of it: the calendar year
and month (for `Format("2006-01")`) and the instant itself. -/
structure Time where
  year : Nat
  month : Nat
  instant : Nat
  deriving DecidableEq, Repr

/-- The zero `time.Time` (January 1, year 1), the initial `lastFetchAt`. -/
def Time.zero : Time := ⟨1, 1, 0⟩

/-- Decimal rendering of `n`, left-padded with zeros to `width` characters. -/
def zeroPad (width n : Nat) : String :=
  String.mk (List.replicate (width - (toString n).length) '0') ++ toString n

/-- The call `t.Format("2006-01")`. -/
def Time.formatYearMonth (t : Time) : String :=
  zeroPad 4 t.year ++ "-" ++ zeroPad 2 t.month

/-- The struct `config.AppState` without its mutex: the embedding is sequential. -/
structure AppState where
  config : Config
  responseData : Bytes
  lastFetchAt : Time
  deriving DecidableEq, Repr

/-- The struct `models.UserInfo`. -/
structure UserInfo where
  UUID : String
  UserName : String
  GroupName : String
  AreaName : String
  deriving DecidableEq, Repr

/-- One element of `UserInfoResp.Data.CharacterDetail`; of its nineteen string
fields the program reads `PlayTime` only. -/
structure CharacterDetail where
  CreateTime : String
  LastLoginTime : String
  CharacterName : String
  PlayTime : String
  deriving DecidableEq, Repr

/-- The field `UserInfoResp.Data`, with the fields the program reads and the
identifying ones; the remaining publish flags and statistics are only decoded
and re-encoded. -/
structure UserInfoData where
  ID : Int
  UUID : String
  CharacterName : String
  AreaName : String
  GroupName : String
  CharacterDetail : List CharacterDetail
  deriving DecidableEq, Repr

/-- The struct `models.UserInfoResp`. -/
structure UserInfoResp where
  Code : Int
  Msg : String
  Data : UserInfoData
  deriving DecidableEq, Repr

/-- The zero value of `models.UserInfoResp`, what `var userInfoResp` declares. -/
def UserInfoResp.zero : UserInfoResp := ⟨0, "", ⟨0, "", "", "", "", []⟩⟩

/-- One element of `SignInRewards.Data`. -/
structure Reward where
  ID : Int
  BeginDate : String
  EndDate : String
  Rule : Int
  ItemName : String
  ItemPic : String
  Num : Int
  ItemDesc : String
  IsGet : Int
  deriving DecidableEq, Repr

/-- The struct `models.SignInRewards`. -/
structure SignInRewards where
  Code : Int
  Msg : String
  Data : List Reward
  deriving DecidableEq, Repr

/-- The struct `models.SearchResponse`; `Data` is the raw nested JSON. -/
structure SearchResponse where
  Code : Int
  Data : Bytes
  Message : String
  deriving DecidableEq, Repr

/-- The struct `models.UserProfile`. -/
structure UserProfile where
  AdminTag : Int
  AreaName : String
  Avatar : String
  CharacterName : String
  FansNum : Int
  GroupName : String
  Posts2CreatorBadge : Int
  Profile : String
  Relation : Int
  TestLimitedBadge : Int
  UUID : String
  deriving DecidableEq, Repr

/-- The struct `models.FFInfoData`. -/
structure FFInfoData where
  CharacterName : String
  PlayTime : Int
  deriving DecidableEq, Repr

/-! ## Requests, the environment and the world -/

/-- A value of the `map[string]any` request body of `GetSignReward`. -/
inductive BodyValue where
  | num (n : Int)
  | str (s : String)
  deriving DecidableEq, Repr

/-- One request handed to the resty client: what `Get` or `Post` sends. -/
structure Request where
  method : String
  url : String
  headers : List (String × String)
  query : List (String × String)
  body : Option (List (String × BodyValue))
  deriving DecidableEq, Repr

/-- A resty response: the program reads its body (and logs the status). -/
structure Response where
  StatusCode : Nat
  Body : Bytes
  deriving DecidableEq, Repr

/-- Everything the program receives from outside, indexed by the order in which
it asks.  `net n` is the outcome of the `n`-th request handed to the client,
after the client's own retries: a transport error or a response.  The `sonic`
codecs are library functions and enter as parameters; `unmarshalUserInfoResp`
also returns the struct as the failed decoder left it.  `writeFile n` is the
error of the `n`-th `os.WriteFile`, and `failedWrite n old data` is what the
file holds after that write failed (`os.WriteFile` truncates the file when it
opens it, so a failure may leave the old content, an empty file or a part of
`data`). -/
structure Env where
  net : Nat → Except String Response
  uuid : Nat → String
  now : Nat → Time
  writeFile : Nat → GoError
  unmarshalUserInfoResp : Bytes → UserInfoResp × GoError
  marshalUserInfoResp : UserInfoResp → Except String Bytes
  unmarshalSignInRewards : Bytes → Except String SignInRewards
  unmarshalSearchResponse : Bytes → Except String SearchResponse
  unmarshalUserProfiles : Bytes → Except String (List UserProfile)
  marshalIndentConfig : Config → Except String Bytes
  prettyJSON : Bytes → Option Bytes
  failedWrite : Nat → Option Bytes → Bytes → Option Bytes

/-- The mutable world: the process-wide `AppState`, the two files, the log of
requests issued so far (oldest first) and how many UUIDs, clock readings and
file writes have been consumed. -/
structure World where
  state : AppState
  configFile : Option Bytes
  outputFile : Option Bytes
  sent : List Request
  uuidsDrawn : Nat
  clockReads : Nat
  writes : Nat
  deriving DecidableEq, Repr


/-! ## Effects: UUIDs, the clock, file writes, the HTTP client -/

/-- The call `uuid.New().String()`: the next UUID of the environment. -/
def newUUID (env : Env) (w : World) : String × World :=
  (env.uuid w.uuidsDrawn, { w with uuidsDrawn := w.uuidsDrawn + 1 })

/-- The call `time.Now()`. -/
def timeNow (env : Env) (w : World) : Time × World :=
  (env.now w.clockReads, { w with clockReads := w.clockReads + 1 })

/-- The call `os.WriteFile(name, data, 0644)`; after a failed write the file
holds what the environment says is left of it. -/
def osWriteFile (env : Env) (name : String) (data : Bytes) (w : World) : GoError × World :=
  match env.writeFile w.writes with
  | some e =>
    if name = ConfigFile then
      (some e, { w with
        configFile := env.failedWrite w.writes w.configFile data, writes := w.writes + 1 })
    else if name = OutputFile then
      (some e, { w with
        outputFile := env.failedWrite w.writes w.outputFile data, writes := w.writes + 1 })
    else (some e, { w with writes := w.writes + 1 })
  | none =>
    if name = ConfigFile then
      (none, { w with configFile := some data, writes := w.writes + 1 })
    else if name = OutputFile then
      (none, { w with outputFile := some data, writes := w.writes + 1 })
    else (none, { w with writes := w.writes + 1 })

/-- Hand one request to the resty client: it is logged and the environment
decides its outcome. -/
def send (env : Env) (req : Request) (w : World) : Except String Response × World :=
  (env.net w.sent.length, { w with sent := w.sent ++ [req] })

/-! ## `config/config.go` -/

/-- The method `AppState.saveUnsafe`. -/
def saveUnsafe (env : Env) (w : World) : GoError × World :=
  match env.marshalIndentConfig w.state.config with
  | .error e => (some e, w)
  | .ok data => osWriteFile env ConfigFile data w

/-- The method `AppState.Save`. -/
def Save (env : Env) (w : World) : GoError × World :=
  saveUnsafe env w

/-- The method `AppState.GetConfig`. -/
def GetConfig (s : AppState) : Config := s.config

/-- The method `AppState.SetConfig`. -/
def SetConfig (env : Env) (cfg : Config) (w : World) : GoError × World :=
  let config := w.state.config
  let config := if cfg.UserAgent ≠ "" then { config with UserAgent := cfg.UserAgent } else config
  let config := if cfg.Cookie ≠ "" then { config with Cookie := cfg.Cookie } else config
  Save env { w with state := { w.state with config := config } }

/-- The method `AppState.HasCookie`. -/
def HasCookie (s : AppState) : Bool := decide (s.config.Cookie ≠ "")

/-- The method `AppState.GetResponseData`. -/
def GetResponseData (s : AppState) : Bytes := s.responseData

/-- The method `AppState.SetResponseData`. -/
def SetResponseData (env : Env) (data : Bytes) (w : World) : World :=
  let t := timeNow env w
  { t.2 with state := { t.2.state with responseData := data, lastFetchAt := t.1 } }

/-- The method `AppState.GetLastFetchAt`. -/
def GetLastFetchAt (s : AppState) : Time := s.lastFetchAt

/-- The method `AppState.HasData`. -/
def HasData (s : AppState) : Bool := decide (s.responseData.length > 0)

/-! ## `services/ff14.go`: requests -/

/-- The method `FF14Service.buildURL`. -/
def buildURL (path : String) : String :=
  Scheme ++ "://" ++ BaseURL ++ path

/-- The headers `FF14Service.setCommonHeaders` puts on a fresh request. -/
def setCommonHeaders (s : AppState) : List (String × String) :=
  let cfg := GetConfig s
  [("User-Agent", cfg.UserAgent),
   ("Cookie", "ff14risingstones=" ++ cfg.Cookie),
   ("Accept", "application/json, text/plain, */*"),
   ("Accept-Language", "zh-CN,zh;q=0.9,en;q=0.8")]

/-- The request of `GetBindInfo`. -/
def bindInfoRequest (s : AppState) (tempsuid : String) : Request :=
  { method := "GET", url := buildURL BindInfoPath, headers := setCommonHeaders s,
    query := [("platform", "2"), ("tempsuid", tempsuid)], body := none }

/-- The request of `GetUserInfo`: the `uuid` parameter is set for a non-empty `userId`. -/
def userInfoRequest (s : AppState) (tempsuid userId : String) : Request :=
  { method := "GET", url := buildURL UserInfoPath, headers := setCommonHeaders s,
    query := if userId ≠ "" then [("tempsuid", tempsuid), ("uuid", userId)]
             else [("tempsuid", tempsuid)],
    body := none }

/-- The request of `SignIn`. -/
def signInRequest (s : AppState) (tempsuid : String) : Request :=
  { method := "POST", url := buildURL SignInPath, headers := setCommonHeaders s,
    query := [("tempsuid", tempsuid)], body := none }

/-- The request of `SignRewardList`. -/
def signRewardListRequest (s : AppState) (tempsuid month : String) : Request :=
  { method := "GET", url := buildURL SignRewardsPath, headers := setCommonHeaders s,
    query := [("tempsuid", tempsuid), ("month", month)], body := none }

/-- The request of `GetSignReward`: a body `{id, month}` and no query parameter. -/
def getSignRewardRequest (s : AppState) (id : Int) (month : String) : Request :=
  { method := "POST", url := buildURL GetSignRewardPath, headers := setCommonHeaders s,
    query := [],
    body := some [("id", BodyValue.num id), ("month", BodyValue.str month)] }

/-- The request of one page of `SearchUser`. -/
def searchUserRequest (s : AppState) (tempsuid name : String) (page : Nat) : Request :=
  { method := "GET", url := buildURL SearchUserPath, headers := setCommonHeaders s,
    query := [("tempsuid", tempsuid), ("type", "6"), ("orderBy", "comment"),
              ("keywords", name), ("limit", "60"), ("page", toString page)],
    body := none }

/-- Value of the query parameter `key` of a request, if it has one. -/
def Request.queryParam (r : Request) (key : String) : Option String :=
  (r.query.find? (fun kv => kv.1 == key)).map (fun kv => kv.2)


/-! ## `services/ff14.go`: operations

Each operation maps a world to its Go result and the world afterwards.  A Go
result `(value, error)` is a pair whose first half is `none` for `nil`. -/

/-- The method `FF14Service.saveResponse`. -/
def saveResponse (env : Env) (body : Bytes) (w : World) : GoError × World :=
  let data : Bytes :=
    match env.prettyJSON body with
    | none => body
    | some formatted => formatted
  osWriteFile env OutputFile data (SetResponseData env data w)

/-- The method `FF14Service.saveBaseInfo`. -/
def saveBaseInfo (env : Env) (infoResp : UserInfoResp) (w : World) : GoError × World :=
  match env.marshalUserInfoResp infoResp with
  | .error e => (some ("编码infoResp失败: " ++ e), w)
  | .ok b => osWriteFile env OutputFile b (SetResponseData env b w)

/-- The method `FF14Service.GetBindInfo`. -/
def GetBindInfo (env : Env) (w : World) : GoError × World :=
  if ¬ HasCookie w.state then (some "cookie未配置", w)
  else
    let u := newUUID env w
    let r := send env (bindInfoRequest w.state u.1) u.2
    match r.1 with
    | .error e => (some ("请求失败: " ++ e), r.2)
    | .ok resp =>
      let sv := saveResponse env resp.Body r.2
      match sv.1 with
      | some e => (some ("保存响应失败: " ++ e), sv.2)
      | none => (none, sv.2)

/-- The method `FF14Service.GetUserInfo`: a failed decode is logged only, and
the struct is returned with a `nil` error. -/
def GetUserInfo (env : Env) (userId : String) (w : World) :
    (Option UserInfoResp × GoError) × World :=
  if ¬ HasCookie w.state then ((none, some "cookie未配置"), w)
  else
    let u := newUUID env w
    let r := send env (userInfoRequest w.state u.1 userId) u.2
    match r.1 with
    | .error e => ((none, some ("请求失败: " ++ e)), r.2)
    | .ok resp =>
      let userInfoResp := (env.unmarshalUserInfoResp resp.Body).1
      ((some userInfoResp, none), r.2)

/-- The method `FF14Service.SaveMyBaseInfo`.  `GetUserInfo` never returns
`(nil, nil)`; that case is listed for totality only. -/
def SaveMyBaseInfo (env : Env) (w : World) : GoError × World :=
  let g := GetUserInfo env "" w
  match g.1 with
  | (_, some e) => (some ("获取数据失败: " ++ e), g.2)
  | (none, none) => (none, g.2)
  | (some infoResp, none) =>
    let sv := saveBaseInfo env infoResp g.2
    match sv.1 with
    | some e => (some ("保存响应失败: " ++ e), sv.2)
    | none => (none, sv.2)

/-- The method `FF14Service.SignIn`. -/
def SignIn (env : Env) (w : World) : (Option Bytes × GoError) × World :=
  if ¬ HasCookie w.state then ((none, some "cookie未配置"), w)
  else
    let u := newUUID env w
    let r := send env (signInRequest w.state u.1) u.2
    match r.1 with
    | .error e => ((none, some ("请求失败: " ++ e)), r.2)
    | .ok resp => ((some resp.Body, none), r.2)

/-- The method `FF14Service.SignRewardList`. -/
def SignRewardList (env : Env) (w : World) : (Option SignInRewards × GoError) × World :=
  if ¬ HasCookie w.state then ((none, some "cookie未配置"), w)
  else
    let u := newUUID env w
    let t := timeNow env u.2
    let r := send env (signRewardListRequest w.state u.1 t.1.formatYearMonth) t.2
    match r.1 with
    | .error e => ((none, some ("请求失败: " ++ e)), r.2)
    | .ok resp =>
      match env.unmarshalSignInRewards resp.Body with
      | .error e => ((none, some ("解析响应失败: " ++ e)), r.2)
      | .ok result => ((some result, none), r.2)

/-- The method `FF14Service.GetSignReward`. -/
def GetSignReward (env : Env) (id : Int) (w : World) : (Option Bytes × GoError) × World :=
  if ¬ HasCookie w.state then ((none, some "cookie未配置"), w)
  else
    let t := timeNow env w
    let r := send env (getSignRewardRequest w.state id t.1.formatYearMonth) t.2
    match r.1 with
    | .error e => ((none, some ("请求失败: " ++ e)), r.2)
    | .ok resp => ((some resp.Body, none), r.2)

/-- The `map[string][]string` of `SignAndGetSignReward`, as an association list. -/
abbrev RespMap := List (String × List String)

/-- The statement `m[key] = append(m[key], v)`. -/
def mapAppend (m : RespMap) (key v : String) : RespMap :=
  if m.any (fun kv => kv.1 == key) then
    m.map (fun kv => if kv.1 = key then (kv.1, kv.2 ++ [v]) else kv)
  else m ++ [(key, [v])]

/-- The initial `respMap` literal of `SignAndGetSignReward`. -/
def emptyRespMap : RespMap :=
  [("unavailable", []), ("available", []), ("claimed", []), ("success", []), ("fail", [])]

/-- The loop `for _, reward := range rewardsBody.Data` of `SignAndGetSignReward`.
It yields the local `respMap` as it stands when the loop is left, the error of
the claim that made the loop return early (if any), and the world. -/
def claimLoop (env : Env) : List Reward → RespMap → World → (RespMap × GoError) × World
  | [], respMap, w => ((respMap, none), w)
  | reward :: rest, respMap, w =>
    if reward.IsGet = 0 then
      let respMap := mapAppend respMap "available" reward.ItemName
      let c := GetSignReward env reward.ID w
      match c.1.2 with
      | some err => ((mapAppend respMap "fail" reward.ItemName, some err), c.2)
      | none => claimLoop env rest (mapAppend respMap "success" reward.ItemName) c.2
    else if reward.IsGet = 1 then
      claimLoop env rest (mapAppend respMap "claimed" reward.ItemName) w
    else
      claimLoop env rest (mapAppend respMap "unavailable" reward.ItemName) w

/-- The method `FF14Service.SignAndGetSignReward`.  The bytes it returns are
`sonic.Marshal(respMap)`, one JSON object; the embedding returns the map that
is encoded (encoding a map of string lists does not fail, so the `log.Fatalf`
branch is not taken).  When a claim fails the code executes `return nil, err`:
the local map is dropped.  `SignRewardList` never returns `(nil, nil)`; that
case is listed for totality only. -/
def SignAndGetSignReward (env : Env) (w : World) : (Option RespMap × GoError) × World :=
  let s := SignIn env w
  match s.1.2 with
  | some err => ((none, some err), s.2)
  | none =>
    let l := SignRewardList env s.2
    match l.1 with
    | (_, some err) => ((none, some err), l.2)
    | (none, none) => ((none, none), l.2)
    | (some rewardsBody, none) =>
      let c := claimLoop env rewardsBody.Data emptyRespMap l.2
      match c.1.2 with
      | some err => ((none, some err), c.2)
      | none => ((some c.1.1, none), c.2)

/-- The method `FF14Service.parseUserInfo`. -/
def parseUserInfo (user : UserProfile) : UserInfo :=
  { UUID := user.UUID, UserName := user.CharacterName,
    GroupName := user.GroupName, AreaName := user.AreaName }

/-- The inner loop `for _, user := range data` of `SearchUser`: the first
candidate that passes the name and server tests, if any. -/
def matchUser (name groupName areaName : String) : List UserProfile → Option UserInfo
  | [] => none
  | user :: rest =>
    if user.CharacterName = name then
      if groupName = "" ∧ areaName = "" then some (parseUserInfo user)
      else if groupName ≠ "" ∧ user.GroupName = groupName then some (parseUserInfo user)
      else if areaName ≠ "" ∧ user.AreaName = areaName then some (parseUserInfo user)
      else matchUser name groupName areaName rest
    else matchUser name groupName areaName rest

/-- The loop `for page := 1; page <= 30; page++` of `SearchUser`, entered with
`left` iterations to go at page `page`; leaving the loop (by exhaustion or by
`break` on an empty page) reaches the final "未找到用户" return. -/
def searchPages (env : Env) (name groupName areaName : String) :
    Nat → Nat → World → (Option UserInfo × GoError) × World
  | 0, _, w => ((none, some ("未找到用户: " ++ name)), w)
  | left + 1, page, w =>
    let u := newUUID env w
    let r := send env (searchUserRequest w.state u.1 name page) u.2
    match r.1 with
    | .error e => ((none, some ("请求失败: " ++ e)), r.2)
    | .ok resp =>
      match env.unmarshalSearchResponse resp.Body with
      | .error e => ((none, some ("解析响应失败: " ++ e)), r.2)
      | .ok result =>
        if result.Code ≠ 10000 then ((none, some ("错误码" ++ toString result.Code)), r.2)
        else
          match env.unmarshalUserProfiles result.Data with
          | .error e => ((none, some ("解析Data数据失败: " ++ e)), r.2)
          | .ok data =>
            if data.length = 0 then ((none, some ("未找到用户: " ++ name)), r.2)
            else
              match matchUser name groupName areaName data with
              | some found => ((some found, none), r.2)
              | none => searchPages env name groupName areaName left (page + 1) r.2

/-- The method `FF14Service.SearchUser`. -/
def SearchUser (env : Env) (name groupName : String) (w : World) :
    (Option UserInfo × GoError) × World :=
  let areaName := GetAreaName groupName
  if ¬ HasCookie w.state then ((none, some "cookie未配置"), w)
  else searchPages env name groupName areaName 30 1 w


/-! ## `ParseFFInfo` and `Load` -/

/-- How a call ends: it returns a value, or the goroutine crashes with a
runtime error (an index out of range). -/
inductive Run (α : Type) where
  | done (value : α)
  | crashed (msg : String)
  deriving DecidableEq, Repr

/-- The second half of `FF14Service.ParseFFInfo`, from `var apiResp` on: decode
the snapshot bytes and read the character name and the play time of
`CharacterDetail[0]`. -/
def parseSnapshot (env : Env) (data : Bytes) : Run (Option FFInfoData × GoError) :=
  let decoded := env.unmarshalUserInfoResp data
  match decoded.2 with
  | some e => .done (none, some ("数据解析失败: " ++ e))
  | none =>
    let apiResp := decoded.1
    match apiResp.Data.CharacterDetail with
    | [] => .crashed "index out of range [0] with length 0"
    | detail :: _ =>
      .done (some { CharacterName := apiResp.Data.CharacterName,
                    PlayTime := ParsePlayTimeToMinutes detail.PlayTime }, none)

/-- The method `FF14Service.ParseFFInfo`; `os.ReadFile(config.OutputFile)` fails
when the world has no snapshot file. -/
def ParseFFInfo (env : Env) (w : World) : Run (Option FFInfoData × GoError) :=
  let data := GetResponseData w.state
  if data.length = 0 then
    match w.outputFile with
    | none => .done (none, some "数据尚未获取")
    | some fileData => parseSnapshot env fileData
  else parseSnapshot env data

/-- The default user-agent string of `AppState.Load`. -/
def defaultUserAgent : String :=
  "Mozilla/5.0 (Windows NT 10.0; Win64; x64) AppleWebKit/537.36 (KHTML, like Gecko) Chrome/120.0.0.0 Safari/537.36"

/-- The default config of `AppState.Load`. -/
def defaultConfig : Config := { UserAgent := defaultUserAgent, Cookie := "" }

/-- The method `AppState.Load`.  `os.ReadFile(ConfigFile)` fails when the world
has no config file; `unmarshalConfig data c` is `sonic.Unmarshal(data, &c)`: the
struct after the call and the error.  The error of `saveUnsafe` is ignored. -/
def Load (env : Env) (unmarshalConfig : Bytes → Config → Config × GoError) (w : World) :
    World :=
  match w.configFile with
  | none =>
    (saveUnsafe env { w with state := { w.state with config := defaultConfig } }).2
  | some data =>
    let decoded := unmarshalConfig data w.state.config
    match decoded.2 with
    | some _ => { w with state := { w.state with config := defaultConfig } }
    | none => { w with state := { w.state with config := decoded.1 } }


/-! ## `models/models.go`: the response envelope -/

/-- The struct `models.StatusData`. -/
structure StatusData where
  HasData : Bool
  HasCookie : Bool
  LastFetchAt : String
  NextFetchAt : String
  FetchInterval : String
  deriving DecidableEq, Repr

/-- The struct `models.ConfigRequest`. -/
structure ConfigRequest where
  UserAgent : String
  Cookie : String
  deriving DecidableEq, Repr

/-- The struct `models.ConfigData`. -/
structure ConfigData where
  HasCookie : Bool
  deriving DecidableEq, Repr

/-- The values the handlers store in the `any` field `Response.Data`. -/
inductive Payload where
  | ffInfo (d : FFInfoData)
  | text (s : Bytes)
  | rewards (r : SignInRewards)
  | decoded (value : Bytes)
  | status (d : StatusData)
  | config (d : ConfigData)
  deriving DecidableEq, Repr

/-- The struct `models.Response`, the envelope of every JSON reply; `Data` is
`none` for `nil` (left out of the JSON by `omitempty`). -/
structure models.Response where
  Code : Int
  Msg : String
  Data : Option Payload
  deriving DecidableEq, Repr

/-- The function `models.NewSuccess`. -/
def NewSuccess (msg : String) (data : Option Payload) : models.Response :=
  { Code := 10000, Msg := msg, Data := data }

/-- The function `models.NewError`. -/
def NewError (code : Int) (msg : String) : models.Response :=
  { Code := code, Msg := msg, Data := none }

/-! ## `handlers/handlers.go`: the JSON handlers -/

/-- What a handler leaves on the connection: `c.JSON(status, body)`, or the bare
status that `gin.Recovery` writes after a crash in the handler. -/
inductive Reply where
  | json (status : Int) (body : models.Response)
  | aborted (status : Int)
  deriving DecidableEq, Repr

def StatusOK : Int := 200

def StatusBadRequest : Int := 400

def StatusNotFound : Int := 404

def StatusInternalServerError : Int := 500

/-- The library functions of the HTTP layer.  `marshalRespMap` is the
`sonic.Marshal(respMap)` whose bytes `SignAndGetSignReward` hands to its
handler; `unmarshalAny` is `sonic.Unmarshal` into an `any`; `shouldBindJSON`
is gin's body binding; `formatTime` and `addFetchInterval` are `time.Format`
and `lastFetch.Add(config.FetchInterval)`. -/
structure HandlerEnv where
  marshalRespMap : RespMap → Bytes
  unmarshalAny : Bytes → Except String Bytes
  shouldBindJSON : Bytes → Except String ConfigRequest
  formatTime : Time → String
  addFetchInterval : Time → Time

/-- The handler `Handler.GetFFInfo`; a crash of `ParseFFInfo` is caught by the
`gin.Recovery` middleware, which answers 500 without a body. -/
def Handler.GetFFInfo (env : Env) (w : World) : Reply × World :=
  match Llmaget.ParseFFInfo env w with
  | .crashed _ => (.aborted StatusInternalServerError, w)
  | .done (_, some _) =>
    (.json StatusNotFound (NewError 404 "数据尚未获取，请先配置Cookie后刷新"), w)
  | .done (data, none) =>
    (.json StatusOK (NewSuccess "success" (data.map Payload.ffInfo)), w)

/-- The handler `Handler.GetSignReward`; `idStr` is the query parameter `id`. -/
def Handler.GetSignReward (env : Env) (idStr : String) (w : World) : Reply × World :=
  let parsed := Atoi idStr.data
  match parsed.2 with
  | some _ => (.json StatusBadRequest (NewError 400 "错误的请求参数"), w)
  | none =>
    let r := Llmaget.GetSignReward env parsed.1 w
    match r.1 with
    | (_, some _) => (.json StatusInternalServerError (NewError 500 "获取数据发生错误"), r.2)
    | (data, none) =>
      (.json StatusOK (NewSuccess "success" (some (Payload.text (data.getD [])))), r.2)

/-- The handler `Handler.SignRewardList`. -/
def Handler.SignRewardList (env : Env) (w : World) : Reply × World :=
  let r := Llmaget.SignRewardList env w
  match r.1 with
  | (_, some _) => (.json StatusInternalServerError (NewError 500 "获取数据发生错误"), r.2)
  | (data, none) => (.json StatusOK (NewSuccess "success" (data.map Payload.rewards)), r.2)

/-- The handler `Handler.SignAndGetSignReward`. -/
def Handler.SignAndGetSignReward (henv : HandlerEnv) (env : Env) (w : World) :
    Reply × World :=
  let r := Llmaget.SignAndGetSignReward env w
  match r.1 with
  | (_, some _) =>
    (.json StatusInternalServerError (NewError 500 "签到并领取奖励过程中发生错误"), r.2)
  | (result, none) =>
    match henv.unmarshalAny ((result.map henv.marshalRespMap).getD []) with
    | .error _ => (.json StatusInternalServerError (NewError 500 "解析响应失败"), r.2)
    | .ok data => (.json StatusOK (NewSuccess "success" (some (Payload.decoded data))), r.2)

/-- The handler `Handler.GetStatus`. -/
def Handler.GetStatus (henv : HandlerEnv) (w : World) : Reply × World :=
  let lastFetch := GetLastFetchAt w.state
  let nextFetch := if lastFetch ≠ Time.zero then henv.addFetchInterval lastFetch else Time.zero
  let fmt := fun (t : Time) => if t = Time.zero then "-" else henv.formatTime t
  let data : StatusData :=
    { HasData := HasData w.state
      HasCookie := HasCookie w.state
      LastFetchAt := fmt lastFetch
      NextFetchAt := fmt nextFetch
      FetchInterval := "12h0m0s" }
  (.json StatusOK { Code := 10000, Msg := "服务运行中", Data := some (Payload.status data) }, w)

/-- The handler `Handler.Refresh`; the fetch it starts with `go` runs on its own
and is not part of the handler's step. -/
def Handler.Refresh (w : World) : Reply × World :=
  if ¬ HasCookie w.state then (.json StatusBadRequest (NewError 400 "请先配置Cookie"), w)
  else (.json StatusOK (NewSuccess "刷新任务已触发，请稍后查询结果" none), w)

/-- The handler `Handler.SignIn`. -/
def Handler.SignIn (henv : HandlerEnv) (env : Env) (w : World) : Reply × World :=
  if ¬ HasCookie w.state then (.json StatusBadRequest (NewError 400 "请先配置Cookie"), w)
  else
    let r := Llmaget.SignIn env w
    match r.1 with
    | (_, some err) =>
      (.json StatusInternalServerError (NewError 500 ("打卡失败: " ++ err)), r.2)
    | (result, none) =>
      match henv.unmarshalAny (result.getD []) with
      | .error _ => (.json StatusInternalServerError (NewError 500 "解析响应失败"), r.2)
      | .ok data => (.json StatusOK (NewSuccess "success" (some (Payload.decoded data))), r.2)

/-- The handler `Handler.GetConfig`. -/
def Handler.GetConfig (w : World) : Reply × World :=
  (.json StatusOK (NewSuccess "success" (some (Payload.config ⟨HasCookie w.state⟩))), w)

/-- The handler `Handler.UpdateConfig`; `body` is the request body. -/
def Handler.UpdateConfig (henv : HandlerEnv) (env : Env) (body : Bytes) (w : World) :
    Reply × World :=
  match henv.shouldBindJSON body with
  | .error e => (.json StatusBadRequest (NewError 400 ("请求格式错误: " ++ e)), w)
  | .ok req =>
    let r := SetConfig env { UserAgent := req.UserAgent, Cookie := req.Cookie } w
    match r.1 with
    | some e => (.json StatusInternalServerError (NewError 500 ("保存配置失败: " ++ e)), r.2)
    | none => (.json StatusOK (NewSuccess "配置更新成功" none), r.2)

/-- A reply is consistent when it is a JSON success (status 200, code 10000), or
a JSON error whose envelope code is its HTTP status, one of 400, 404 and 500,
and which carries no data; a reply without a JSON body is not constrained. -/
def Reply.Consistent (r : Reply) : Prop :=
  match r with
  | .json status body =>
    (status = 200 ∧ body.Code = 10000)
      ∨ ((status = 400 ∨ status = 404 ∨ status = 500) ∧ body.Code = status ∧ body.Data = none)
  | .aborted _ => True

/-- A handler environment whose decoders accept every input. -/
def sampleHandlerEnv : HandlerEnv :=
  { marshalRespMap := fun _ => [123, 125]
    unmarshalAny := fun b => .ok b
    shouldBindJSON := fun _ => .ok ⟨"", "ck"⟩
    formatTime := fun _ => "2025-01-01 00:00:00"
    addFetchInterval := fun t => t }


/-! ## `main.go`: the scheduler -/

/-- The two loops of `startScheduler`: the base-info loop (every `FetchInterval`)
and the daily sign-in loop (every `SignInterval`). -/
inductive Job where
  | fetchBaseInfo
  | dailySign
  deriving DecidableEq, Repr

/-- The body of one loop iteration, `if err := op(); err != nil { log.Printf(..) }`:
the operation of the loop is invoked; the error is what the body logs and
drops. -/
def runJob (env : Env) (job : Job) (w : World) : GoError × World :=
  match job with
  | .fetchBaseInfo => SaveMyBaseInfo env w
  | .dailySign =>
    let r := SignAndGetSignReward env w
    (r.1.2, r.2)

/-- The function `startScheduler` over the ticks that its two tickers deliver,
in the order in which they fire (each tick runs the body of its own loop, one
at a time).  The result lists every invocation with the error it logged. -/
def startScheduler (env : Env) : List Job → World → List (Job × GoError) × World
  | [], w => ([], w)
  | job :: rest, w =>
    let r := runJob env job w
    let after := startScheduler env rest r.2
    ((job, r.1) :: after.1, after.2)

/-- A sequence of `SetConfig` calls, their errors ignored. -/
def setConfigs (env : Env) : List Config → World → World
  | [], w => w
  | cfg :: rest, w => setConfigs env rest (SetConfig env cfg w).2


/-! ## Vocabulary of the sign-in claims -/

/-- Item names of the rewards whose `IsGet` satisfies `p`, in list order. -/
def namesWhere (p : Int → Bool) (rewards : List Reward) : List String :=
  (rewards.filter (fun r => p r.IsGet)).map (fun r => r.ItemName)

/-- Ids of the eligible rewards (`IsGet = 0`), in list order. -/
def eligibleIds (rewards : List Reward) : List Int :=
  (rewards.filter (fun r => decide (r.IsGet = 0))).map (fun r => r.ID)

/-- Whether the `n`-th request handed to the client comes back without a
transport error. -/
def succeeds (env : Env) (n : Nat) : Bool :=
  match env.net n with
  | .ok _ => true
  | .error _ => false

/-- A list of ids cut off immediately after the first one whose request fails,
the first id being sent as request number `n`. -/
def cutAfterFirstFailure (ok : Nat → Bool) : Nat → List Int → List Int
  | _, [] => []
  | n, id :: rest => id :: (if ok n then cutAfterFirstFailure ok (n + 1) rest else [])

/-- The reward id of a request, when it is a claim request: one sent to the
reward-claim URL with an integer `id` in its body. -/
def Request.claimId (r : Request) : Option Int :=
  if r.url = buildURL GetSignRewardPath then
    match r.body with
    | some body =>
      match body.lookup "id" with
      | some (BodyValue.num id) => some id
      | _ => none
    | none => none
  else none

/-! ## Sample worlds, to instantiate the theorems -/

/-- A reward with the given id, item name and `IsGet`. -/
def sampleReward (id : Int) (name : String) (isGet : Int) : Reward :=
  ⟨id, "", "", 0, name, "", 0, "", isGet⟩

/-- A fresh world whose config holds a cookie; the snapshot holds `data`. -/
def sampleWorld (data : Bytes) : World :=
  { state := ⟨⟨"UA", "session"⟩, data, Time.zero⟩, configFile := none, outputFile := none,
    sent := [], uuidsDrawn := 0, clockReads := 0, writes := 0 }

/-- An environment with the given network outcomes whose reward-list decoder
yields `rewards`, whose user-info decoder fails on every body (leaving the zero
struct) and whose encoders succeed; a write that fails leaves an empty file. -/
def sampleEnv (net : Nat → Except String Response) (rewards : List Reward) : Env :=
  { net := net
    uuid := fun n => "uuid-" ++ toString n
    now := fun n => ⟨2025, 1, n + 1⟩
    writeFile := fun _ => none
    unmarshalUserInfoResp := fun _ => (UserInfoResp.zero, some "invalid character")
    marshalUserInfoResp := fun _ => .ok [123, 125]
    unmarshalSignInRewards := fun _ => .ok ⟨10000, "", rewards⟩
    unmarshalSearchResponse := fun _ => .error "invalid character"
    unmarshalUserProfiles := fun _ => .error "invalid character"
    marshalIndentConfig := fun _ => .ok [123, 125]
    prettyJSON := fun _ => none
    failedWrite := fun _ _ _ => some [] }

/-- A network on which every request is answered. -/
def netAllOk : Nat → Except String Response :=
  fun _ => .ok ⟨200, [111, 107]⟩

/-- A network on which exactly request number `k` fails in transport. -/
def netFailAt (k : Nat) : Nat → Except String Response :=
  fun n => if n = k then .error "timeout" else .ok ⟨200, [111, 107]⟩


/-! ## Vocabulary of the search claims -/

/-- The candidate `c` passes the tests of `SearchUser name server`: its character
name is `name` and, for a non-empty `server`, its group name is `server` or
`server` resolves through `GetAreaName` to a region that is its area name. -/
def Matches (name server : String) (c : UserProfile) : Prop :=
  c.CharacterName = name ∧
    (server = "" ∨ c.GroupName = server ∨
      (GetAreaName server ≠ "" ∧ c.AreaName = GetAreaName server))

/-- Request number `n` is answered, both decodings succeed, the envelope code is
10000 and the candidate list is `data`. -/
def PageOk (env : Env) (n : Nat) (data : List UserProfile) : Prop :=
  ∃ resp result, env.net n = .ok resp
    ∧ env.unmarshalSearchResponse resp.Body = .ok result
    ∧ result.Code = 10000
    ∧ env.unmarshalUserProfiles result.Data = .ok data

/-- The search requests for the `k` consecutive pages `page, page+1, ...`, the
first one carrying UUID number `u0`. -/
def pageRequests (env : Env) (st : AppState) (name : String) (u0 page k : Nat) :
    List Request :=
  (List.range k).map (fun i => searchUserRequest st (env.uuid (u0 + i)) name (page + i))

/-- The world after `k` search requests for the pages `page, page+1, ...`. -/
def afterPages (env : Env) (name : String) (page k : Nat) (w : World) : World :=
  { w with
    uuidsDrawn := w.uuidsDrawn + k
    sent := w.sent ++ pageRequests env w.state name w.uuidsDrawn page k }

/-- A search candidate with the given character name, group, area and uuid. -/
def sampleProfile (name group area uuid : String) : UserProfile :=
  ⟨0, area, "", name, 0, group, 0, "", 0, 0, uuid⟩

/-- An environment that answers request number `n` with the candidate list
`pages n`: the body of the response is the byte `n`, and the decoders read the
page number back from it. -/
def sampleSearchEnv (pages : Nat → List UserProfile) : Env :=
  { sampleEnv netAllOk [] with
    net := fun n => .ok ⟨200, [UInt8.ofNat n]⟩
    unmarshalSearchResponse := fun b => .ok ⟨10000, b, ""⟩
    unmarshalUserProfiles := fun b =>
      .ok (pages (match b with
        | x :: _ => x.toNat
        | [] => 0)) }


/-! ## Vocabulary of the play-time claims -/

/-- The text `s` contains a component "N lit": a non-empty run of ASCII digits
directly followed by the unit `lit`. -/
def HasComponent (lit s : List Char) : Prop :=
  ∃ pre ds post, ds ≠ [] ∧ (∀ c ∈ ds, c.isDigit = true) ∧ s = pre ++ ds ++ lit ++ post

/-- The text `s` contains the component "N lit" exactly once, with digit run
`ds` (the whole run: the text before it does not end in a digit), surrounded by
text that holds no further component of this unit. -/
def SoleComponent (lit s ds : List Char) : Prop :=
  ∃ pre post, s = pre ++ ds ++ lit ++ post ∧ ds ≠ [] ∧ (∀ c ∈ ds, c.isDigit = true) ∧
    ¬ HasComponent lit pre ∧ ¬ HasComponent lit post ∧
    (∀ c, pre.getLast? = some c → c.isDigit = false)

/-- The number `n` carried by the unit `lit` in `s`: `0` when the component is
absent, the value of its digit run when it occurs exactly once. -/
def ComponentIs (lit s : List Char) (n : Nat) : Prop :=
  (¬ HasComponent lit s ∧ n = 0) ∨ (∃ ds, SoleComponent lit s ds ∧ n = decimal ds)

/-- The `int` that `ParsePlayTimeToMinutes` reads for one unit: the value
`strconv.Atoi` returns for capture group 1, or `0` when the pattern has no match. -/
def componentValue (lit : List Char) (playTime : String) : Int :=
  match FindStringSubmatch lit playTime.data with
  | some m => (Atoi m).1
  | none => 0


/-! ## `ParsePlayTimeToMinutes` -/

theorem tryRun_some (lit s : List Char) :
    ∀ (k : Nat) (g : List Char), tryRun lit s k = some g →
      ∃ j, 0 < j ∧ j ≤ k ∧ g = s.take j ∧ lit.isPrefixOf (s.drop j) = true := by
  intro k
  induction k with
  | zero => intro g h; simp [tryRun] at h
  | succ k ih =>
    intro g h
    unfold tryRun at h
    split at h
    · next hp =>
      refine ⟨k + 1, Nat.succ_pos k, le_refl _, ?_, hp⟩
      exact (Option.some.inj h).symm
    · obtain ⟨j, hj0, hjk, hg, hp⟩ := ih g h
      exact ⟨j, hj0, Nat.le_succ_of_le hjk, hg, hp⟩

theorem matchHere_some (lit s g : List Char) (h : matchHere lit s = some g) :
    g ≠ [] ∧ (∀ c ∈ g, c.isDigit = true) ∧ ∃ post, s = g ++ lit ++ post := by
  obtain ⟨j, hj0, hjk, hg, hp⟩ := tryRun_some lit s _ g h
  have hpre : lit <+: s.drop j := List.isPrefixOf_iff_prefix.mp hp
  obtain ⟨post, hpost⟩ := hpre
  have hlen : g.length = j := by
    rw [hg, List.length_take]
    have : (s.takeWhile Char.isDigit).length ≤ s.length :=
      (List.takeWhile_prefix Char.isDigit).length_le
    omega
  have hsub : g <+: s.takeWhile Char.isDigit := by
    have h1 : g <+: s := hg ▸ List.take_prefix j s
    have h2 : s.takeWhile Char.isDigit <+: s := List.takeWhile_prefix Char.isDigit
    exact List.prefix_of_prefix_length_le h1 h2 (by omega)
  refine ⟨?_, ?_, post, ?_⟩
  · intro hnil
    rw [hnil] at hlen
    simp at hlen
    omega
  · intro c hc
    exact List.mem_takeWhile_imp (hsub.subset hc)
  · rw [List.append_assoc, hpost, hg, List.take_append_drop]

theorem matchHere_run (lit run post : List Char) (hlit : lit ≠ [])
    (hnd : ∀ c ∈ lit, c.isDigit = false) (hrun : run ≠ [])
    (hdig : ∀ c ∈ run, c.isDigit = true) :
    matchHere lit (run ++ lit ++ post) = some run := by
  obtain ⟨a, lit', rfl⟩ := List.exists_cons_of_ne_nil hlit
  have ha : ¬ (a.isDigit = true) := by
    have := hnd a (List.mem_cons_self a lit')
    simp [this]
  have htw : (run ++ (a :: lit') ++ post).takeWhile Char.isDigit = run := by
    rw [List.append_assoc, List.takeWhile_append_of_pos hdig, List.cons_append,
      List.takeWhile_cons_of_neg ha, List.append_nil]
  obtain ⟨r, run', rfl⟩ := List.exists_cons_of_ne_nil hrun
  unfold matchHere
  rw [htw, List.length_cons]
  unfold tryRun
  have hdrop : List.drop (run'.length + 1) ((r :: run') ++ (a :: lit') ++ post)
      = (a :: lit') ++ post := by
    rw [List.append_assoc]
    exact List.drop_left' (by simp)
  have htake : List.take (run'.length + 1) ((r :: run') ++ (a :: lit') ++ post)
      = r :: run' := by
    rw [List.append_assoc]
    exact List.take_left' (by simp)
  rw [hdrop, htake]
  have : (a :: lit').isPrefixOf ((a :: lit') ++ post) = true :=
    List.isPrefixOf_iff_prefix.mpr (List.prefix_append _ _)
  rw [if_pos this]

theorem hasComponent_of_find (lit : List Char) :
    ∀ (s g : List Char), FindStringSubmatch lit s = some g →
      g ≠ [] ∧ (∀ c ∈ g, c.isDigit = true) ∧ ∃ pre post, s = pre ++ g ++ lit ++ post := by
  intro s
  induction s with
  | nil => intro g h; simp [FindStringSubmatch] at h
  | cons c cs ih =>
    intro g h
    unfold FindStringSubmatch at h
    cases hm : matchHere lit (c :: cs) with
    | some g' =>
      rw [hm] at h
      have hg : g' = g := Option.some.inj h
      subst hg
      obtain ⟨h1, h2, post, h3⟩ := matchHere_some lit (c :: cs) g' hm
      exact ⟨h1, h2, [], post, by simpa using h3⟩
    | none =>
      rw [hm] at h
      obtain ⟨h1, h2, pre, post, h3⟩ := ih g h
      exact ⟨h1, h2, c :: pre, post, by rw [h3]; simp⟩

theorem find_none_of_not_hasComponent (lit s : List Char) (h : ¬ HasComponent lit s) :
    FindStringSubmatch lit s = none := by
  cases hf : FindStringSubmatch lit s with
  | none => rfl
  | some g =>
    obtain ⟨h1, h2, pre, post, h3⟩ := hasComponent_of_find lit s g hf
    exact absurd ⟨pre, g, post, h1, h2, h3⟩ h

theorem find_ne_none_of_hasComponent (lit : List Char) (hlit : lit ≠ [])
    (hnd : ∀ c ∈ lit, c.isDigit = false) (ds post : List Char) (hds : ds ≠ [])
    (hdig : ∀ c ∈ ds, c.isDigit = true) :
    ∀ pre : List Char, FindStringSubmatch lit (pre ++ ds ++ lit ++ post) ≠ none := by
  intro pre
  induction pre with
  | nil =>
    obtain ⟨r, run', rfl⟩ := List.exists_cons_of_ne_nil hds
    have hm := matchHere_run lit (r :: run') post hlit hnd hds hdig
    simp only [List.nil_append, List.cons_append] at hm ⊢
    unfold FindStringSubmatch
    rw [hm]
    simp
  | cons c pre ih =>
    simp only [List.cons_append]
    unfold FindStringSubmatch
    cases hm : matchHere lit (c :: (pre ++ ds ++ lit ++ post)) with
    | some g => simp
    | none => simpa using ih

theorem not_hasComponent_of_find_none (lit s : List Char) (hlit : lit ≠ [])
    (hnd : ∀ c ∈ lit, c.isDigit = false) (h : FindStringSubmatch lit s = none) :
    ¬ HasComponent lit s := by
  rintro ⟨pre, ds, post, hds, hdig, rfl⟩
  exact find_ne_none_of_hasComponent lit hlit hnd ds post hds hdig pre h

theorem matchHere_none_before (lit P R : List Char) (d : Char)
    (hnd : ∀ c ∈ lit, c.isDigit = false) (hP : P ≠ [])
    (hno : ¬ HasComponent lit P)
    (hlast : ∀ c, P.getLast? = some c → c.isDigit = false)
    (hd : d.isDigit = true) :
    matchHere lit (P ++ d :: R) = none := by
  cases hm : matchHere lit (P ++ d :: R) with
  | none => rfl
  | some g =>
    exfalso
    obtain ⟨hg, hdig, post, heq⟩ := matchHere_some lit _ g hm
    rcases List.append_eq_append_iff.mp heq with ⟨a, h1, h2⟩ | ⟨c, h1, h2⟩
    · -- g ++ lit = P ++ a and d :: R = a ++ post
      cases a with
      | nil =>
        apply hno
        refine ⟨[], g, [], hg, hdig, ?_⟩
        simp at h1
        simp [h1]
      | cons x a =>
        have hx : x = d := by
          simp only [List.cons_append, List.cons.injEq] at h2
          exact h2.1.symm
        subst hx
        rcases List.append_eq_append_iff.mp h1 with ⟨b, h3, h4⟩ | ⟨b, h3, h4⟩
        · -- P = g ++ b and lit = b ++ x :: a
          have : x ∈ lit := by rw [h4]; simp
          have := hnd x this
          rw [hd] at this
          exact Bool.noConfusion this
        · -- g = P ++ b
          obtain ⟨l, hl⟩ : ∃ l, P.getLast? = some l := by
            cases hp : P.getLast? with
            | none => exact absurd (List.getLast?_eq_none_iff.mp hp) hP
            | some l => exact ⟨l, rfl⟩
          have hlmem : l ∈ P := List.mem_of_getLast?_eq_some hl
          have hlg : l ∈ g := by rw [h3]; exact List.mem_append_left _ hlmem
          have h5 := hdig l hlg
          rw [hlast l hl] at h5
          exact Bool.noConfusion h5
    · -- P = g ++ lit ++ c
      apply hno
      exact ⟨[], g, c, hg, hdig, by simpa using h1⟩

theorem find_of_soleComponent (lit s ds : List Char) (hlit : lit ≠ [])
    (hnd : ∀ c ∈ lit, c.isDigit = false) (h : SoleComponent lit s ds) :
    FindStringSubmatch lit s = some ds := by
  obtain ⟨pre, post, rfl, hds, hdig, hpre, _, hlast⟩ := h
  induction pre with
  | nil =>
    obtain ⟨r, run', rfl⟩ := List.exists_cons_of_ne_nil hds
    have hm := matchHere_run lit (r :: run') post hlit hnd hds hdig
    simp only [List.nil_append, List.cons_append] at hm ⊢
    unfold FindStringSubmatch
    rw [hm]
  | cons c pre ih =>
    obtain ⟨r, run', rfl⟩ := List.exists_cons_of_ne_nil hds
    have hr : r.isDigit = true := hdig r (List.mem_cons_self r run')
    have hm := matchHere_none_before lit (c :: pre) (run' ++ lit ++ post) r hnd
      (List.cons_ne_nil c pre) hpre hlast hr
    have hshape : (c :: pre) ++ (r :: run') ++ lit ++ post
        = c :: (pre ++ (r :: run') ++ lit ++ post) := by simp
    have hshape2 : (c :: pre) ++ r :: (run' ++ lit ++ post)
        = c :: (pre ++ (r :: run') ++ lit ++ post) := by simp
    rw [hshape2] at hm
    rw [hshape]
    unfold FindStringSubmatch
    rw [hm]
    apply ih
    · rintro ⟨p, g, q, h1, h2, h3⟩
      exact hpre ⟨c :: p, g, q, h1, h2, by rw [h3]; simp⟩
    · intro l hl
      apply hlast l
      cases pre with
      | nil => simp at hl
      | cons y ys => simpa using hl

theorem isDigit_ne_sign (c : Char) (h : c.isDigit = true) :
    (c == '+') = false ∧ (c == '-') = false := by
  constructor
  · cases hc : (c == '+') with
    | false => rfl
    | true =>
      have : c = '+' := by simpa using hc
      subst this
      simp at h
  · cases hc : (c == '-') with
    | false => rfl
    | true =>
      have : c = '-' := by simpa using hc
      subst this
      simp at h

theorem Atoi_digits (ds : List Char) (hds : ds ≠ []) (hdig : ∀ c ∈ ds, c.isDigit = true) :
    Atoi ds = if 9223372036854775808 ≤ decimal ds
      then (maxInt, some "strconv.Atoi: value out of range")
      else ((decimal ds : Int), none) := by
  obtain ⟨c, rest, rfl⟩ := List.exists_cons_of_ne_nil hds
  obtain ⟨h1, h2⟩ := isDigit_ne_sign c (hdig c (List.mem_cons_self c rest))
  have hall : (c :: rest).all Char.isDigit = true := List.all_eq_true.mpr hdig
  unfold Atoi
  simp only [h1, h2, Bool.or_self, Bool.false_eq_true, if_false, List.isEmpty_cons, hall,
    Bool.not_true, Bool.not_false, Bool.true_and, Bool.false_and, decide_eq_true_eq]

theorem componentValue_of_componentIs (lit : List Char) (playTime : String) (n : Nat)
    (hlit : lit ≠ []) (hnd : ∀ c ∈ lit, c.isDigit = false)
    (h : ComponentIs lit playTime.data n) (hn : n < 9223372036854775808) :
    componentValue lit playTime = (n : Int) := by
  unfold componentValue
  rcases h with ⟨hno, rfl⟩ | ⟨ds, hsole, rfl⟩
  · rw [find_none_of_not_hasComponent lit _ hno]
    rfl
  · rw [find_of_soleComponent lit _ ds hlit hnd hsole]
    obtain ⟨_, _, _, hds, hdig, _⟩ := hsole
    simp only [Atoi_digits ds hds hdig]
    rw [if_neg (by omega)]

theorem wrapInt_zero : wrapInt 0 = 0 := by decide

theorem wrapInt_idem (x : Int) : wrapInt (wrapInt x) = wrapInt x := by
  simp only [wrapInt]
  omega

theorem ParsePlayTimeToMinutes_eq (playTime : String) :
    ParsePlayTimeToMinutes playTime =
      wrapInt (wrapInt (wrapInt (wrapInt (componentValue dayRe playTime * 24) * 60)
        + wrapInt (componentValue hourRe playTime * 60)) + componentValue minRe playTime) := by
  unfold ParsePlayTimeToMinutes componentValue
  cases FindStringSubmatch dayRe playTime.data <;>
    cases FindStringSubmatch hourRe playTime.data <;>
    cases FindStringSubmatch minRe playTime.data <;>
    simp only [zero_mul, zero_add, add_zero, wrapInt_zero, wrapInt_idem]

theorem dayRe_lit : dayRe ≠ [] ∧ ∀ c ∈ dayRe, c.isDigit = false := by
  simp [dayRe]

theorem hourRe_lit : hourRe ≠ [] ∧ ∀ c ∈ hourRe, c.isDigit = false := by
  simp [hourRe]

theorem minRe_lit : minRe ≠ [] ∧ ∀ c ∈ minRe, c.isDigit = false := by
  simp [minRe]

/-- C1 (amended): for a play-time string that holds each of the components "N天",
"N小时", "N分钟" at most once, in any order and with arbitrary other text
around them, `ParsePlayTimeToMinutes` returns `days*1440 + hours*60 + minutes`
(an absent component counting as 0) whenever that sum fits Go's 64-bit `int`. -/
theorem ParsePlayTimeToMinutes_components (playTime : String) (d h m : Nat)
    (hd : ComponentIs dayRe playTime.data d)
    (hh : ComponentIs hourRe playTime.data h)
    (hm : ComponentIs minRe playTime.data m)
    (hfit : d * 1440 + h * 60 + m < 9223372036854775808) :
    ParsePlayTimeToMinutes playTime = (d : Int) * 1440 + (h : Int) * 60 + (m : Int) := by
  rw [ParsePlayTimeToMinutes_eq,
    componentValue_of_componentIs dayRe playTime d dayRe_lit.1 dayRe_lit.2 hd (by omega),
    componentValue_of_componentIs hourRe playTime h hourRe_lit.1 hourRe_lit.2 hh (by omega),
    componentValue_of_componentIs minRe playTime m minRe_lit.1 minRe_lit.2 hm (by omega)]
  simp only [wrapInt]
  omega

/-- C1 (witness): "1天2小时3分钟" holds one component of each unit and parses
to 1563 minutes; likewise "5小时" gives 300 and the empty string 0. -/
theorem ParsePlayTimeToMinutes_components_witness :
    ParsePlayTimeToMinutes "1天2小时3分钟" = ((1 : Nat) : Int) * 1440 + ((2 : Nat) : Int) * 60
        + ((3 : Nat) : Int)
      ∧ ParsePlayTimeToMinutes "1天2小时3分钟" = 1563
      ∧ ParsePlayTimeToMinutes "5小时" = 300
      ∧ ParsePlayTimeToMinutes "" = 0 :=
  ⟨ParsePlayTimeToMinutes_components "1天2小时3分钟" 1 2 3
      (Or.inr ⟨['1'], ⟨[], "2小时3分钟".data, rfl, by decide, by decide,
        not_hasComponent_of_find_none dayRe [] dayRe_lit.1 dayRe_lit.2 rfl,
        not_hasComponent_of_find_none dayRe _ dayRe_lit.1 dayRe_lit.2 (by decide),
        by decide⟩, by decide⟩)
      (Or.inr ⟨['2'], ⟨"1天".data, "3分钟".data, rfl, by decide, by decide,
        not_hasComponent_of_find_none hourRe _ hourRe_lit.1 hourRe_lit.2 (by decide),
        not_hasComponent_of_find_none hourRe _ hourRe_lit.1 hourRe_lit.2 (by decide),
        by decide⟩, by decide⟩)
      (Or.inr ⟨['3'], ⟨"1天2小时".data, [], rfl, by decide, by decide,
        not_hasComponent_of_find_none minRe _ minRe_lit.1 minRe_lit.2 (by decide),
        not_hasComponent_of_find_none minRe [] minRe_lit.1 minRe_lit.2 rfl,
        by decide⟩, by decide⟩)
      (by decide),
    by decide, by decide, by decide⟩

/-- C1 (counterexample): the string "6405119470038039天" holds exactly a day
component with N = 6405119470038039 and no hour or minute component, yet the
result is not `N*1440 + 0*60 + 0`: the product leaves the 64-bit range and
`ParsePlayTimeToMinutes` returns -9223372036854775456. -/
theorem ParsePlayTimeToMinutes_overflow_counterexample :
    ComponentIs dayRe "6405119470038039天".data 6405119470038039
      ∧ ComponentIs hourRe "6405119470038039天".data 0
      ∧ ComponentIs minRe "6405119470038039天".data 0
      ∧ ParsePlayTimeToMinutes "6405119470038039天" = -9223372036854775456
      ∧ ParsePlayTimeToMinutes "6405119470038039天"
          ≠ ((6405119470038039 : Nat) : Int) * 1440 + ((0 : Nat) : Int) * 60
              + ((0 : Nat) : Int) :=
  ⟨Or.inr ⟨"6405119470038039".data, ⟨[], [], rfl, by decide, by decide,
      not_hasComponent_of_find_none dayRe [] dayRe_lit.1 dayRe_lit.2 rfl,
      not_hasComponent_of_find_none dayRe [] dayRe_lit.1 dayRe_lit.2 rfl,
      by decide⟩, by decide⟩,
    Or.inl ⟨not_hasComponent_of_find_none hourRe _ hourRe_lit.1 hourRe_lit.2 (by decide), rfl⟩,
    Or.inl ⟨not_hasComponent_of_find_none minRe _ minRe_lit.1 minRe_lit.2 (by decide), rfl⟩,
    by decide, by decide⟩

/-- C2 (what the code does): `ParsePlayTimeToMinutes` is total and raises nothing,
but a component that cannot be converted is not counted as 0.  When the digit
run `ds` of a matched day, hour or minute component does not fit a 64-bit
`int`, `strconv.Atoi` reports a range error that is discarded and the value it
returns with it, `maxInt = 2^63 - 1`, is used: the result is the wrapped sum of
the other components with -1440 for such a day component, -60 for such an hour
component and `maxInt` for such a minute component. -/
theorem ParsePlayTimeToMinutes_out_of_range (playTime : String) (ds : List Char)
    (hbig : 9223372036854775808 ≤ decimal ds) :
    (FindStringSubmatch dayRe playTime.data = some ds →
      Atoi ds = (maxInt, some "strconv.Atoi: value out of range")
      ∧ ParsePlayTimeToMinutes playTime
          = wrapInt (componentValue hourRe playTime * 60 + componentValue minRe playTime
              - 1440))
    ∧ (FindStringSubmatch hourRe playTime.data = some ds →
      Atoi ds = (maxInt, some "strconv.Atoi: value out of range")
      ∧ ParsePlayTimeToMinutes playTime
          = wrapInt (componentValue dayRe playTime * 1440 + componentValue minRe playTime
              - 60))
    ∧ (FindStringSubmatch minRe playTime.data = some ds →
      Atoi ds = (maxInt, some "strconv.Atoi: value out of range")
      ∧ ParsePlayTimeToMinutes playTime
          = wrapInt (componentValue dayRe playTime * 1440 + componentValue hourRe playTime * 60
              + maxInt)) := by
  have key : ∀ lit, FindStringSubmatch lit playTime.data = some ds →
      Atoi ds = (maxInt, some "strconv.Atoi: value out of range")
      ∧ componentValue lit playTime = maxInt := by
    intro lit hf
    obtain ⟨h1, h2, _⟩ := hasComponent_of_find lit _ ds hf
    have ha : Atoi ds = (maxInt, some "strconv.Atoi: value out of range") := by
      rw [Atoi_digits ds h1 h2, if_pos hbig]
    refine ⟨ha, ?_⟩
    unfold componentValue
    rw [hf]
    simp only [ha]
  refine ⟨fun hf => ⟨(key _ hf).1, ?_⟩, fun hf => ⟨(key _ hf).1, ?_⟩,
    fun hf => ⟨(key _ hf).1, ?_⟩⟩
  · rw [ParsePlayTimeToMinutes_eq, (key _ hf).2]
    generalize componentValue hourRe playTime = a
    generalize componentValue minRe playTime = b
    simp only [wrapInt, maxInt]
    omega
  · rw [ParsePlayTimeToMinutes_eq, (key _ hf).2]
    generalize componentValue dayRe playTime = a
    generalize componentValue minRe playTime = b
    simp only [wrapInt, maxInt]
    omega
  · rw [ParsePlayTimeToMinutes_eq, (key _ hf).2]
    generalize componentValue dayRe playTime = a
    generalize componentValue hourRe playTime = b
    simp only [wrapInt, maxInt]
    omega

/-- C2 (witness): in "99999999999999999999天5小时" the day digits exceed the
64-bit range; the result is 5*60 - 1440. -/
theorem ParsePlayTimeToMinutes_out_of_range_witness :
    Atoi "99999999999999999999".data = (maxInt, some "strconv.Atoi: value out of range")
      ∧ ParsePlayTimeToMinutes "99999999999999999999天5小时"
          = wrapInt (componentValue hourRe "99999999999999999999天5小时" * 60
              + componentValue minRe "99999999999999999999天5小时" - 1440) :=
  (ParsePlayTimeToMinutes_out_of_range "99999999999999999999天5小时"
    "99999999999999999999".data (by decide)).1 (by decide)

/-- C2 (at the failing input): the day component of "99999999999999999999天5小时"
cannot be converted to an `int`, the only other component contributes
5*60 = 300 minutes, and the result is -1140, not 300; the over-long minute
component of "99999999999999999999分钟" alone yields 2^63 - 1, not 0. -/
theorem ParsePlayTimeToMinutes_out_of_range_counterexample :
    FindStringSubmatch dayRe "99999999999999999999天5小时".data
        = some "99999999999999999999".data
      ∧ (Atoi "99999999999999999999".data).2 = some "strconv.Atoi: value out of range"
      ∧ componentValue hourRe "99999999999999999999天5小时" * 60 = 300
      ∧ componentValue minRe "99999999999999999999天5小时" = 0
      ∧ ParsePlayTimeToMinutes "99999999999999999999天5小时" = -1140
      ∧ ParsePlayTimeToMinutes "99999999999999999999天5小时" ≠ 300
      ∧ ParsePlayTimeToMinutes "99999999999999999999分钟" = 9223372036854775807
      ∧ ParsePlayTimeToMinutes "99999999999999999999分钟" ≠ 0 := by
  refine ⟨?_, ?_, ?_, ?_, ?_, ?_, ?_, ?_⟩ <;> decide

/-! ## `GetAreaName` -/

/-- C3: `GetAreaName` is total; it maps every member of an alias group to the
group's canonical name and every other string, the empty one included, to "";
so its value is always one of the four canonical names or "". -/
theorem GetAreaName_total (serverName : String) :
    GetAreaName serverName =
        (if serverName ∈ ["n", "鸟", "陆行鸟"] then "陆行鸟"
         else if serverName ∈ ["m", "猫", "猫小胖"] then "猫小胖"
         else if serverName ∈ ["g", "狗", "豆豆柴"] then "豆豆柴"
         else if serverName ∈ ["z", "猪", "莫古力"] then "莫古力"
         else "")
      ∧ GetAreaName serverName ∈ ["陆行鸟", "猫小胖", "豆豆柴", "莫古力", ""]
      ∧ GetAreaName "" = "" := by
  refine ⟨?_, ?_, by decide⟩
  · unfold GetAreaName
    split <;> simp_all
  · unfold GetAreaName
    split <;> simp

/-! ## `SetConfig` -/

theorem osWriteFile_state (env : Env) (name : String) (data : Bytes) (w : World) :
    (osWriteFile env name data w).2.state = w.state := by
  unfold osWriteFile
  split <;> (split <;> [rfl; (split <;> rfl)])

theorem osWriteFile_sent (env : Env) (name : String) (data : Bytes) (w : World) :
    (osWriteFile env name data w).2.sent = w.sent := by
  unfold osWriteFile
  split <;> (split <;> [rfl; (split <;> rfl)])

theorem Save_state (env : Env) (w : World) : (Save env w).2.state = w.state := by
  unfold Save saveUnsafe
  split
  · rfl
  · exact osWriteFile_state env _ _ w

/-- C4: `SetConfig` is a field-wise update of the in-memory config: each field
becomes the incoming field when that is non-empty and stays as it was
otherwise; `{A,B}` updated with `{"",C}` gives `{A,C}`, and an update with
`{"",""}` changes nothing. -/
theorem SetConfig_fieldwise (env : Env) (cfg : Config) (w : World) :
    (SetConfig env cfg w).2.state.config =
        { UserAgent := if cfg.UserAgent ≠ "" then cfg.UserAgent else w.state.config.UserAgent,
          Cookie := if cfg.Cookie ≠ "" then cfg.Cookie else w.state.config.Cookie }
      ∧ (SetConfig env ⟨"", "C"⟩
            { w with state := { w.state with config := ⟨"A", "B"⟩ } }).2.state.config = ⟨"A", "C"⟩
      ∧ (SetConfig env ⟨"", ""⟩ w).2.state.config = w.state.config := by
  have key : ∀ (c : Config) (v : World),
      (SetConfig env c v).2.state.config =
        { UserAgent := if c.UserAgent ≠ "" then c.UserAgent else v.state.config.UserAgent,
          Cookie := if c.Cookie ≠ "" then c.Cookie else v.state.config.Cookie } := by
    intro c v
    unfold SetConfig
    rw [Save_state]
    by_cases h1 : c.UserAgent = "" <;> by_cases h2 : c.Cookie = "" <;> simp [h1, h2]
  refine ⟨key cfg w, ?_, ?_⟩
  · rw [key]
    simp
  · rw [key]
    simp

/-! ## `SignAndGetSignReward` -/

theorem GetSignReward_world (env : Env) (id : Int) (w : World)
    (hc : w.state.config.Cookie ≠ "") :
    (GetSignReward env id w).2 =
      { w with
        clockReads := w.clockReads + 1
        sent := w.sent ++ [getSignRewardRequest w.state id (env.now w.clockReads).formatYearMonth] }
      := by
  unfold GetSignReward
  simp only [HasCookie, hc, ne_eq, not_false_eq_true, decide_True, not_true_eq_false, if_false,
    timeNow, send]
  cases env.net w.sent.length <;> rfl

theorem GetSignReward_error (env : Env) (id : Int) (w : World)
    (hc : w.state.config.Cookie ≠ "") :
    (GetSignReward env id w).1.2 =
      match env.net w.sent.length with
      | .ok _ => none
      | .error e => some ("请求失败: " ++ e) := by
  unfold GetSignReward
  simp only [HasCookie, hc, ne_eq, not_false_eq_true, decide_True, not_true_eq_false, if_false,
    timeNow, send]
  cases env.net w.sent.length <;> rfl

theorem mapAppend_unavailable (u a c s f : List String) (v : String) :
    mapAppend [("unavailable", u), ("available", a), ("claimed", c), ("success", s), ("fail", f)]
        "unavailable" v
      = [("unavailable", u ++ [v]), ("available", a), ("claimed", c), ("success", s), ("fail", f)]
      := by
  simp [mapAppend]

theorem mapAppend_available (u a c s f : List String) (v : String) :
    mapAppend [("unavailable", u), ("available", a), ("claimed", c), ("success", s), ("fail", f)]
        "available" v
      = [("unavailable", u), ("available", a ++ [v]), ("claimed", c), ("success", s), ("fail", f)]
      := by
  simp [mapAppend]

theorem mapAppend_claimed (u a c s f : List String) (v : String) :
    mapAppend [("unavailable", u), ("available", a), ("claimed", c), ("success", s), ("fail", f)]
        "claimed" v
      = [("unavailable", u), ("available", a), ("claimed", c ++ [v]), ("success", s), ("fail", f)]
      := by
  simp [mapAppend]

theorem mapAppend_success (u a c s f : List String) (v : String) :
    mapAppend [("unavailable", u), ("available", a), ("claimed", c), ("success", s), ("fail", f)]
        "success" v
      = [("unavailable", u), ("available", a), ("claimed", c), ("success", s ++ [v]), ("fail", f)]
      := by
  simp [mapAppend]

theorem mapAppend_fail (u a c s f : List String) (v : String) :
    mapAppend [("unavailable", u), ("available", a), ("claimed", c), ("success", s), ("fail", f)]
        "fail" v
      = [("unavailable", u), ("available", a), ("claimed", c), ("success", s), ("fail", f ++ [v])]
      := by
  simp [mapAppend]

theorem claimLoop_all_ok (env : Env) :
    ∀ (rs : List Reward) (u a c s f : List String) (w : World),
      w.state.config.Cookie ≠ "" →
      (∀ n, w.sent.length ≤ n → n < w.sent.length + (eligibleIds rs).length →
        succeeds env n = true) →
      (claimLoop env rs
          [("unavailable", u), ("available", a), ("claimed", c), ("success", s), ("fail", f)]
          w).1
        = ([("unavailable", u ++ namesWhere (fun g => decide (g ≠ 0 ∧ g ≠ 1)) rs),
            ("available", a ++ namesWhere (fun g => decide (g = 0)) rs),
            ("claimed", c ++ namesWhere (fun g => decide (g = 1)) rs),
            ("success", s ++ namesWhere (fun g => decide (g = 0)) rs),
            ("fail", f)], none) := by
  intro rs
  induction rs with
  | nil => intro u a c s f w _ _; simp [claimLoop, namesWhere]
  | cons r rs ih =>
    intro u a c s f w hc hok
    unfold claimLoop
    by_cases h0 : r.IsGet = 0
    · have hel : eligibleIds (r :: rs) = r.ID :: eligibleIds rs := by
        simp [eligibleIds, h0]
      rw [hel, List.length_cons] at hok
      have hnet : succeeds env w.sent.length = true := hok _ (le_refl _) (by omega)
      have herr : (GetSignReward env r.ID w).1.2 = none := by
        rw [GetSignReward_error env r.ID w hc]
        unfold succeeds at hnet
        cases hn : env.net w.sent.length with
        | ok _ => rfl
        | error e => rw [hn] at hnet; exact Bool.noConfusion hnet
      rw [if_pos h0]
      simp only [herr, mapAppend_available, mapAppend_success]
      rw [ih]
      · simp [namesWhere, h0]
      · rw [GetSignReward_world env r.ID w hc]; exact hc
      · intro n hn hlt
        rw [GetSignReward_world env r.ID w hc] at hn hlt
        simp at hn hlt
        apply hok <;> omega
    · have hel : eligibleIds (r :: rs) = eligibleIds rs := by
        simp [eligibleIds, h0]
      rw [hel] at hok
      by_cases h1 : r.IsGet = 1
      · rw [if_neg h0, if_pos h1, mapAppend_claimed, ih _ _ _ _ _ w hc hok]
        simp [namesWhere, h1]
      · rw [if_neg h0, if_neg h1, mapAppend_unavailable, ih _ _ _ _ _ w hc hok]
        simp [namesWhere, h0, h1]

theorem SignIn_world (env : Env) (w : World) (hc : w.state.config.Cookie ≠ "") :
    (SignIn env w).2 =
      { w with
        uuidsDrawn := w.uuidsDrawn + 1
        sent := w.sent ++ [signInRequest w.state (env.uuid w.uuidsDrawn)] } := by
  unfold SignIn
  simp only [HasCookie, hc, ne_eq, not_false_eq_true, decide_True, not_true_eq_false, if_false,
    newUUID, send]
  cases env.net w.sent.length <;> rfl

theorem SignIn_result (env : Env) (w : World) (hc : w.state.config.Cookie ≠ "") :
    (SignIn env w).1 =
      match env.net w.sent.length with
      | .ok resp => (some resp.Body, none)
      | .error e => (none, some ("请求失败: " ++ e)) := by
  unfold SignIn
  simp only [HasCookie, hc, ne_eq, not_false_eq_true, decide_True, not_true_eq_false, if_false,
    newUUID, send]
  cases env.net w.sent.length <;> rfl

theorem SignIn_no_cookie (env : Env) (w : World) (hc : w.state.config.Cookie = "") :
    SignIn env w = ((none, some "cookie未配置"), w) := by
  unfold SignIn
  simp [HasCookie, hc]

theorem SignRewardList_world (env : Env) (w : World) (hc : w.state.config.Cookie ≠ "") :
    (SignRewardList env w).2 =
      { w with
        uuidsDrawn := w.uuidsDrawn + 1
        clockReads := w.clockReads + 1
        sent := w.sent ++ [signRewardListRequest w.state (env.uuid w.uuidsDrawn)
          (env.now w.clockReads).formatYearMonth] } := by
  unfold SignRewardList
  simp only [HasCookie, hc, ne_eq, not_false_eq_true, decide_True, not_true_eq_false, if_false,
    newUUID, timeNow, send]
  cases env.net w.sent.length with
  | error e => rfl
  | ok resp =>
    simp only []
    cases env.unmarshalSignInRewards resp.Body <;> rfl

theorem SignRewardList_result (env : Env) (w : World) (hc : w.state.config.Cookie ≠ "") :
    (SignRewardList env w).1 =
      match env.net w.sent.length with
      | .error e => (none, some ("请求失败: " ++ e))
      | .ok resp =>
        match env.unmarshalSignInRewards resp.Body with
        | .error e => (none, some ("解析响应失败: " ++ e))
        | .ok result => (some result, none) := by
  unfold SignRewardList
  simp only [HasCookie, hc, ne_eq, not_false_eq_true, decide_True, not_true_eq_false, if_false,
    newUUID, timeNow, send]
  cases env.net w.sent.length with
  | error e => rfl
  | ok resp =>
    simp only []
    cases env.unmarshalSignInRewards resp.Body <;> rfl

theorem SignRewardList_no_cookie (env : Env) (w : World) (hc : w.state.config.Cookie = "") :
    SignRewardList env w = ((none, some "cookie未配置"), w) := by
  unfold SignRewardList
  simp [HasCookie, hc]

/-- The run of `SignAndGetSignReward` once sign-in and the reward list have
succeeded: the loop is entered with the empty map in the world after the two
requests. -/
theorem SignAndGetSignReward_loop (env : Env) (w : World) (r1 r2 : Response)
    (rewards : SignInRewards)
    (hcookie : w.state.config.Cookie ≠ "")
    (hsign : env.net w.sent.length = .ok r1)
    (hlist : env.net (w.sent.length + 1) = .ok r2)
    (hdecode : env.unmarshalSignInRewards r2.Body = .ok rewards) :
    ∃ w2 : World,
      w2.state = w.state
      ∧ w2.sent = w.sent ++ [signInRequest w.state (env.uuid w.uuidsDrawn),
          signRewardListRequest w.state (env.uuid (w.uuidsDrawn + 1))
            (env.now w.clockReads).formatYearMonth]
      ∧ SignAndGetSignReward env w =
          (match (claimLoop env rewards.Data emptyRespMap w2).1.2 with
           | some err => (none, some err)
           | none => (some (claimLoop env rewards.Data emptyRespMap w2).1.1, none),
           (claimLoop env rewards.Data emptyRespMap w2).2) := by
  have hs1 : (SignIn env w).1 = (some r1.Body, none) := by
    rw [SignIn_result env w hcookie, hsign]
  have hw1 := SignIn_world env w hcookie
  have hc1 : (SignIn env w).2.state.config.Cookie ≠ "" := by rw [hw1]; exact hcookie
  have hlen1 : (SignIn env w).2.sent.length = w.sent.length + 1 := by rw [hw1]; simp
  have hl1 : (SignRewardList env (SignIn env w).2).1 = (some rewards, none) := by
    rw [SignRewardList_result env _ hc1, hlen1, hlist]
    simp only [hdecode]
  have hw2 := SignRewardList_world env _ hc1
  refine ⟨(SignRewardList env (SignIn env w).2).2, ?_, ?_, ?_⟩
  · rw [hw2, hw1]
  · rw [hw2, hw1]
    simp
  · unfold SignAndGetSignReward
    simp only [hs1, hl1]
    cases (claimLoop env rewards.Data emptyRespMap (SignRewardList env (SignIn env w).2).2).1.2
      <;> rfl

/-- C5: when sign-in and the reward list succeed and every claim succeeds (the
requests that follow those two, one per eligible reward),
`SignAndGetSignReward` returns the map with exactly the five buckets, where
`available` holds the item names of the rewards with `IsGet = 0` in list order,
`claimed` those with `IsGet = 1`, `unavailable` those with any other value,
`success` equals `available` and `fail` is empty, and no error. -/
theorem SignAndGetSignReward_summary (env : Env) (w : World) (r1 r2 : Response)
    (rewards : SignInRewards)
    (hcookie : w.state.config.Cookie ≠ "")
    (hsign : env.net w.sent.length = .ok r1)
    (hlist : env.net (w.sent.length + 1) = .ok r2)
    (hdecode : env.unmarshalSignInRewards r2.Body = .ok rewards)
    (hclaims : ∀ n, w.sent.length + 2 ≤ n →
      n < w.sent.length + 2 + (eligibleIds rewards.Data).length → succeeds env n = true) :
    (SignAndGetSignReward env w).1 =
      (some [("unavailable", namesWhere (fun g => decide (g ≠ 0 ∧ g ≠ 1)) rewards.Data),
             ("available", namesWhere (fun g => decide (g = 0)) rewards.Data),
             ("claimed", namesWhere (fun g => decide (g = 1)) rewards.Data),
             ("success", namesWhere (fun g => decide (g = 0)) rewards.Data),
             ("fail", [])], none) := by
  obtain ⟨w2, hst, hsent, hrun⟩ :=
    SignAndGetSignReward_loop env w r1 r2 rewards hcookie hsign hlist hdecode
  have hloop := claimLoop_all_ok env rewards.Data [] [] [] [] [] w2 (by rw [hst]; exact hcookie)
    (by
      intro n hn hlt
      rw [hsent] at hn hlt
      simp at hn hlt
      apply hclaims <;> omega)
  rw [hrun]
  unfold emptyRespMap
  simp only [hloop, List.nil_append]

/-- C5 (witness): for the rewards `[{1, item1, 0}, {2, item2, 1}, {3, item3, 2}]`
on a network that answers every request the summary is `available:[item1]`,
`claimed:[item2]`, `unavailable:[item3]`, `success:[item1]`, `fail:[]`. -/
theorem SignAndGetSignReward_summary_witness :
    (SignAndGetSignReward
        (sampleEnv netAllOk
          [sampleReward 1 "item1" 0, sampleReward 2 "item2" 1, sampleReward 3 "item3" 2])
        (sampleWorld [])).1 =
      (some [("unavailable", ["item3"]), ("available", ["item1"]), ("claimed", ["item2"]),
             ("success", ["item1"]), ("fail", [])], none) :=
  (SignAndGetSignReward_summary
    (sampleEnv netAllOk
      [sampleReward 1 "item1" 0, sampleReward 2 "item2" 1, sampleReward 3 "item3" 2])
    (sampleWorld []) ⟨200, [111, 107]⟩ ⟨200, [111, 107]⟩
    ⟨10000, "", [sampleReward 1 "item1" 0, sampleReward 2 "item2" 1, sampleReward 3 "item3" 2]⟩
    (by decide) rfl rfl rfl (fun _ _ _ => rfl)).trans (by decide)


theorem claimId_getSignRewardRequest (st : AppState) (id : Int) (month : String) :
    (getSignRewardRequest st id month).claimId = some id := by
  simp [Request.claimId, getSignRewardRequest, List.lookup]

theorem claimLoop_sent (env : Env) :
    ∀ (rs : List Reward) (m : RespMap) (w : World),
      w.state.config.Cookie ≠ "" →
      ∃ L : List Request,
        (claimLoop env rs m w).2.sent = w.sent ++ L
        ∧ L.map Request.claimId
            = (cutAfterFirstFailure (succeeds env) w.sent.length (eligibleIds rs)).map some
        ∧ (claimLoop env rs m w).2.state = w.state := by
  intro rs
  induction rs with
  | nil =>
    intro m w _
    exact ⟨[], by simp [claimLoop], by simp [eligibleIds, cutAfterFirstFailure], rfl⟩
  | cons r rs ih =>
    intro m w hc
    have hw := GetSignReward_world env r.ID w hc
    have he := GetSignReward_error env r.ID w hc
    unfold claimLoop
    by_cases h0 : r.IsGet = 0
    · rw [if_pos h0]
      have hel : eligibleIds (r :: rs) = r.ID :: eligibleIds rs := by
        simp [eligibleIds, h0]
      rw [hel]
      unfold cutAfterFirstFailure
      cases hn : env.net w.sent.length with
      | error e =>
        rw [hn] at he
        have hs : succeeds env w.sent.length = false := by simp [succeeds, hn]
        simp only [he, hs]
        refine ⟨[getSignRewardRequest w.state r.ID (env.now w.clockReads).formatYearMonth],
          ?_, ?_, ?_⟩
        · rw [hw]
        · simp [claimId_getSignRewardRequest]
        · rw [hw]
      | ok resp =>
        rw [hn] at he
        have hs : succeeds env w.sent.length = true := by simp [succeeds, hn]
        simp only [he, hs]
        obtain ⟨L, h1, h2, h3⟩ := ih
          (mapAppend (mapAppend m "available" r.ItemName) "success" r.ItemName)
          (GetSignReward env r.ID w).2 (by rw [hw]; exact hc)
        refine ⟨getSignRewardRequest w.state r.ID (env.now w.clockReads).formatYearMonth :: L,
          ?_, ?_, ?_⟩
        · rw [h1, hw]
          simp
        · have hlen : (GetSignReward env r.ID w).2.sent.length = w.sent.length + 1 := by
            rw [hw]; simp
          rw [hlen] at h2
          simp [claimId_getSignRewardRequest, h2]
        · rw [h3, hw]
    · have hel : eligibleIds (r :: rs) = eligibleIds rs := by
        simp [eligibleIds, h0]
      rw [if_neg h0, hel]
      by_cases h1 : r.IsGet = 1
      · rw [if_pos h1]
        exact ih _ w hc
      · rw [if_neg h1]
        exact ih _ w hc

/-- C6: once sign-in and the reward list have succeeded, the requests that
`SignAndGetSignReward` issues after those two are exactly claim requests, and
their ids are the ids of the rewards with `IsGet = 0` in list order, cut off
immediately after the first claim whose request fails. -/
theorem SignAndGetSignReward_claim_sequence (env : Env) (w : World) (r1 r2 : Response)
    (rewards : SignInRewards)
    (hcookie : w.state.config.Cookie ≠ "")
    (hsign : env.net w.sent.length = .ok r1)
    (hlist : env.net (w.sent.length + 1) = .ok r2)
    (hdecode : env.unmarshalSignInRewards r2.Body = .ok rewards) :
    ∃ L : List Request,
      (SignAndGetSignReward env w).2.sent =
          w.sent ++ [signInRequest w.state (env.uuid w.uuidsDrawn),
            signRewardListRequest w.state (env.uuid (w.uuidsDrawn + 1))
              (env.now w.clockReads).formatYearMonth] ++ L
      ∧ (signInRequest w.state (env.uuid w.uuidsDrawn)).claimId = none
      ∧ (signRewardListRequest w.state (env.uuid (w.uuidsDrawn + 1))
            (env.now w.clockReads).formatYearMonth).claimId = none
      ∧ L.map Request.claimId =
          (cutAfterFirstFailure (succeeds env) (w.sent.length + 2)
            (eligibleIds rewards.Data)).map some := by
  obtain ⟨w2, hst, hsent, hrun⟩ :=
    SignAndGetSignReward_loop env w r1 r2 rewards hcookie hsign hlist hdecode
  obtain ⟨L, h1, h2, _⟩ := claimLoop_sent env rewards.Data emptyRespMap w2
    (by rw [hst]; exact hcookie)
  have hlen : w2.sent.length = w.sent.length + 2 := by rw [hsent]; simp
  refine ⟨L, ?_, ?_, ?_, ?_⟩
  · rw [hrun]
    simp only []
    rw [h1, hsent]
  · simp only [Request.claimId, signInRequest]
    rw [if_neg (by decide)]
  · simp only [Request.claimId, signRewardListRequest]
    rw [if_neg (by decide)]
  · rw [h2, hlen]

/-- C6 (witness): with two eligible rewards (ids 1 and 2) and a network on which
the first claim (request number 2) fails, the requests issued are the sign-in,
the reward list and the claim of id 1: the claim of id 2 is never attempted. -/
theorem SignAndGetSignReward_claim_sequence_witness :
    (∃ L : List Request,
      (SignAndGetSignReward
          (sampleEnv (netFailAt 2) [sampleReward 1 "item1" 0, sampleReward 2 "item2" 0])
          (sampleWorld [])).2.sent =
        [] ++ [signInRequest (sampleWorld []).state "uuid-0",
               signRewardListRequest (sampleWorld []).state "uuid-1" "2025-01"] ++ L
      ∧ (signInRequest (sampleWorld []).state "uuid-0").claimId = none
      ∧ (signRewardListRequest (sampleWorld []).state "uuid-1" "2025-01").claimId = none
      ∧ L.map Request.claimId = [some 1])
    ∧ (SignAndGetSignReward
          (sampleEnv (netFailAt 2) [sampleReward 1 "item1" 0, sampleReward 2 "item2" 0])
          (sampleWorld [])).2.sent.map Request.claimId = [none, none, some 1] :=
  ⟨SignAndGetSignReward_claim_sequence
      (sampleEnv (netFailAt 2) [sampleReward 1 "item1" 0, sampleReward 2 "item2" 0])
      (sampleWorld []) ⟨200, [111, 107]⟩ ⟨200, [111, 107]⟩
      ⟨10000, "", [sampleReward 1 "item1" 0, sampleReward 2 "item2" 0]⟩
      (by decide) rfl rfl rfl,
    by decide⟩


/-- C7 (what the code does): whenever `SignAndGetSignReward` returns an error, the
summary it returns with it is `nil`; the map in which the failed item was
recorded under `fail` is dropped by `return nil, err`. -/
theorem SignAndGetSignReward_error_without_summary (env : Env) (w : World) (e : String)
    (h : (SignAndGetSignReward env w).1.2 = some e) :
    (SignAndGetSignReward env w).1.1 = none := by
  unfold SignAndGetSignReward at h ⊢
  cases h1 : (SignIn env w).1.2 with
  | some err => simp only [h1]
  | none =>
    simp only [h1] at h ⊢
    rcases hl : (SignRewardList env (SignIn env w).2).1 with ⟨a, b⟩
    cases b with
    | some err => simp only [hl]
    | none =>
      cases a with
      | none => simp only [hl]
      | some rewardsBody =>
        simp only [hl] at h ⊢
        cases hc : (claimLoop env rewardsBody.Data emptyRespMap
            (SignRewardList env (SignIn env w).2).2).1.2 with
        | some err => simp only [hc]
        | none =>
          simp only [hc] at h
          exact Option.noConfusion h

/-- C7 (witness): with the eligible rewards item1 and item2 and a network on
which the first claim fails, the call returns `nil` together with the error,
although the loop had recorded `fail: [item1]` in its local map. -/
theorem SignAndGetSignReward_error_without_summary_witness :
    (SignAndGetSignReward
        (sampleEnv (netFailAt 2) [sampleReward 1 "item1" 0, sampleReward 2 "item2" 0])
        (sampleWorld [])).1.2 = some "请求失败: timeout"
      ∧ (SignAndGetSignReward
        (sampleEnv (netFailAt 2) [sampleReward 1 "item1" 0, sampleReward 2 "item2" 0])
        (sampleWorld [])).1.1 = none
      ∧ (claimLoop
          (sampleEnv (netFailAt 2) [sampleReward 1 "item1" 0, sampleReward 2 "item2" 0])
          [sampleReward 1 "item1" 0, sampleReward 2 "item2" 0] emptyRespMap
          (SignRewardList
            (sampleEnv (netFailAt 2) [sampleReward 1 "item1" 0, sampleReward 2 "item2" 0])
            (SignIn
              (sampleEnv (netFailAt 2) [sampleReward 1 "item1" 0, sampleReward 2 "item2" 0])
              (sampleWorld [])).2).2).1
        = ([("unavailable", []), ("available", ["item1"]), ("claimed", []), ("success", []),
            ("fail", ["item1"])], some "请求失败: timeout") :=
  ⟨by decide,
    SignAndGetSignReward_error_without_summary
      (sampleEnv (netFailAt 2) [sampleReward 1 "item1" 0, sampleReward 2 "item2" 0])
      (sampleWorld []) "请求失败: timeout" (by decide),
    by decide⟩

theorem SignIn_sent (env : Env) (w : World) :
    (SignIn env w).2.sent = w.sent
      ∨ (SignIn env w).2.sent = w.sent ++ [signInRequest w.state (env.uuid w.uuidsDrawn)] := by
  by_cases hc : w.state.config.Cookie = ""
  · left
    rw [SignIn_no_cookie env w hc]
  · right
    rw [SignIn_world env w hc]

theorem SignIn_state (env : Env) (w : World) : (SignIn env w).2.state = w.state := by
  by_cases hc : w.state.config.Cookie = ""
  · rw [SignIn_no_cookie env w hc]
  · rw [SignIn_world env w hc]

theorem SignRewardList_sent (env : Env) (w : World) :
    (SignRewardList env w).2.sent = w.sent
      ∨ ∃ u m, (SignRewardList env w).2.sent = w.sent ++ [signRewardListRequest w.state u m] := by
  by_cases hc : w.state.config.Cookie = ""
  · left
    rw [SignRewardList_no_cookie env w hc]
  · right
    rw [SignRewardList_world env w hc]
    exact ⟨_, _, rfl⟩

/-- C8: if `SignIn` fails, `SignAndGetSignReward` returns that error in the world
`SignIn` left, where every new request (at most the sign-in itself) went to the
sign-in URL: no reward-list and no claim request; if `SignIn` succeeds and
`SignRewardList` fails, it returns that error in the world `SignRewardList`
left, where every new request went to the sign-in or the reward-list URL: no
claim request. -/
theorem SignAndGetSignReward_aborts (env : Env) (w : World) :
    (∀ e, (SignIn env w).1.2 = some e →
        SignAndGetSignReward env w = ((none, some e), (SignIn env w).2)
        ∧ ∀ r ∈ (SignAndGetSignReward env w).2.sent.drop w.sent.length,
            r.url = buildURL SignInPath)
    ∧ (∀ e, (SignIn env w).1.2 = none →
        (SignRewardList env (SignIn env w).2).1.2 = some e →
        SignAndGetSignReward env w = ((none, some e), (SignRewardList env (SignIn env w).2).2)
        ∧ ∀ r ∈ (SignAndGetSignReward env w).2.sent.drop w.sent.length,
            r.url = buildURL SignInPath ∨ r.url = buildURL SignRewardsPath)
    ∧ buildURL SignInPath ≠ buildURL SignRewardsPath
    ∧ buildURL SignInPath ≠ buildURL GetSignRewardPath
    ∧ buildURL SignRewardsPath ≠ buildURL GetSignRewardPath := by
  refine ⟨?_, ?_, by decide, by decide, by decide⟩
  · intro e h
    have hrun : SignAndGetSignReward env w = ((none, some e), (SignIn env w).2) := by
      unfold SignAndGetSignReward
      simp only [h]
    refine ⟨hrun, ?_⟩
    rw [hrun]
    intro r hr
    rcases SignIn_sent env w with hs | hs
    · rw [hs] at hr
      simp at hr
    · rw [hs] at hr
      simp at hr
      rw [hr]
      rfl
  · intro e h1 h2
    have hrun : SignAndGetSignReward env w
        = ((none, some e), (SignRewardList env (SignIn env w).2).2) := by
      unfold SignAndGetSignReward
      simp only [h1]
      rcases hl : (SignRewardList env (SignIn env w).2).1 with ⟨a, b⟩
      rw [hl] at h2
      simp only at h2
      subst h2
      cases a <;> rfl
    refine ⟨hrun, ?_⟩
    rw [hrun]
    intro r hr
    simp only at hr
    have hst := SignIn_state env w
    rcases SignRewardList_sent env (SignIn env w).2 with hl | ⟨u, m, hl⟩ <;>
      rcases SignIn_sent env w with hs | hs <;>
      rw [hl, hs] at hr <;> simp at hr
    · left; rw [hr]; rfl
    · right; rw [hr]; rfl
    · rcases hr with hr | hr
      · left; rw [hr]; rfl
      · right; rw [hr]; rfl

/-- C8 (witness): when the sign-in request fails in transport, the flow returns
that error and the sign-in request is the only one issued; when the reward-list
request fails, the flow returns that error and two requests were issued. -/
theorem SignAndGetSignReward_aborts_witness :
    (SignAndGetSignReward (sampleEnv (netFailAt 0) [sampleReward 1 "item1" 0]) (sampleWorld []))
        = ((none, some "请求失败: timeout"),
            (SignIn (sampleEnv (netFailAt 0) [sampleReward 1 "item1" 0]) (sampleWorld [])).2)
      ∧ (SignAndGetSignReward (sampleEnv (netFailAt 0) [sampleReward 1 "item1" 0])
          (sampleWorld [])).2.sent = [signInRequest (sampleWorld []).state "uuid-0"]
      ∧ (SignAndGetSignReward (sampleEnv (netFailAt 1) [sampleReward 1 "item1" 0])
          (sampleWorld [])).1 = (none, some "请求失败: timeout")
      ∧ (SignAndGetSignReward (sampleEnv (netFailAt 1) [sampleReward 1 "item1" 0])
          (sampleWorld [])).2.sent.map Request.claimId = [none, none] :=
  ⟨((SignAndGetSignReward_aborts (sampleEnv (netFailAt 0) [sampleReward 1 "item1" 0])
      (sampleWorld [])).1 "请求失败: timeout" (by decide)).1,
    by decide,
    congrArg Prod.fst
      (((SignAndGetSignReward_aborts (sampleEnv (netFailAt 1) [sampleReward 1 "item1" 0])
        (sampleWorld [])).2.1 "请求失败: timeout" (by decide) (by decide)).1),
    by decide⟩


/-! ## `GetUserInfo` and `SaveMyBaseInfo` -/

/-- C9 (what the code does): when the user-info body fails to decode, `GetUserInfo`
still returns the struct as the decoder left it with a `nil` error, and
`SaveMyBaseInfo` encodes that struct, overwrites the in-memory snapshot, its
fetch time and the snapshot file, and returns `nil`. -/
theorem SaveMyBaseInfo_after_decode_failure (env : Env) (w : World) (resp : Response)
    (v : UserInfoResp) (err : String) (b : Bytes)
    (hcookie : w.state.config.Cookie ≠ "")
    (hnet : env.net w.sent.length = .ok resp)
    (hdecode : env.unmarshalUserInfoResp resp.Body = (v, some err))
    (hencode : env.marshalUserInfoResp v = .ok b)
    (hwrite : env.writeFile w.writes = none) :
    (GetUserInfo env "" w).1 = (some v, none)
      ∧ (SaveMyBaseInfo env w).1 = none
      ∧ (SaveMyBaseInfo env w).2.state.responseData = b
      ∧ (SaveMyBaseInfo env w).2.state.lastFetchAt = env.now w.clockReads
      ∧ (SaveMyBaseInfo env w).2.outputFile = some b := by
  have hg : GetUserInfo env "" w =
      ((some v, none),
        { w with
          uuidsDrawn := w.uuidsDrawn + 1
          sent := w.sent ++ [userInfoRequest w.state (env.uuid w.uuidsDrawn) ""] }) := by
    unfold GetUserInfo
    simp only [HasCookie, hcookie, ne_eq, not_false_eq_true, decide_True, not_true_eq_false,
      if_false, newUUID, send, hnet, hdecode]
  have hs : SaveMyBaseInfo env w =
      (none,
        { w with
          state := { w.state with responseData := b, lastFetchAt := env.now w.clockReads }
          outputFile := some b
          sent := w.sent ++ [userInfoRequest w.state (env.uuid w.uuidsDrawn) ""]
          uuidsDrawn := w.uuidsDrawn + 1
          clockReads := w.clockReads + 1
          writes := w.writes + 1 }) := by
    unfold SaveMyBaseInfo
    have hne : OutputFile ≠ ConfigFile := by decide
    simp only [hg, saveBaseInfo, hencode, SetResponseData, timeNow, osWriteFile, hwrite,
      if_neg hne, if_true]
  refine ⟨by rw [hg], ?_, ?_, ?_, ?_⟩ <;> rw [hs]

/-- C9 (witness): the cached snapshot is "old", the body does not decode; the
fetch returns no error and the snapshot bytes, the fetch time and the snapshot
file are all replaced. -/
theorem SaveMyBaseInfo_after_decode_failure_witness :
    ((GetUserInfo (sampleEnv netAllOk []) "" (sampleWorld [111, 108, 100])).1
        = (some UserInfoResp.zero, none)
      ∧ (SaveMyBaseInfo (sampleEnv netAllOk []) (sampleWorld [111, 108, 100])).1 = none
      ∧ (SaveMyBaseInfo (sampleEnv netAllOk []) (sampleWorld [111, 108, 100])).2.state.responseData
          = [123, 125]
      ∧ (SaveMyBaseInfo (sampleEnv netAllOk []) (sampleWorld [111, 108, 100])).2.state.lastFetchAt
          = ⟨2025, 1, 1⟩
      ∧ (SaveMyBaseInfo (sampleEnv netAllOk []) (sampleWorld [111, 108, 100])).2.outputFile
          = some [123, 125])
    ∧ (sampleWorld [111, 108, 100]).state.responseData = [111, 108, 100]
    ∧ (sampleWorld [111, 108, 100]).state.lastFetchAt = Time.zero
    ∧ (sampleWorld [111, 108, 100]).outputFile = none
    ∧ ((sampleEnv netAllOk []).unmarshalUserInfoResp [111, 107]).2 = some "invalid character" :=
  ⟨SaveMyBaseInfo_after_decode_failure (sampleEnv netAllOk []) (sampleWorld [111, 108, 100])
      ⟨200, [111, 107]⟩ UserInfoResp.zero "invalid character" [123, 125]
      (by decide) rfl rfl rfl rfl,
    rfl, rfl, rfl, rfl⟩

/-! ## The `tempsuid` query parameter -/

/-- C10 (what the code does): the requests of `GetBindInfo`, `GetUserInfo`, `SignIn`,
`SignRewardList` and `SearchUser` carry the UUID they were given as the query
parameter `tempsuid`; the request of `GetSignReward` has no query parameter at
all, and `GetSignReward` draws no UUID: on the sample world it sends one
request without `tempsuid`, where `SignIn` sends one with the fresh UUID. -/
theorem tempsuid_on_requests (st : AppState) (u userId month name : String) (id : Int)
    (page : Nat) :
    (bindInfoRequest st u).queryParam "tempsuid" = some u
      ∧ (userInfoRequest st u userId).queryParam "tempsuid" = some u
      ∧ (signInRequest st u).queryParam "tempsuid" = some u
      ∧ (signRewardListRequest st u month).queryParam "tempsuid" = some u
      ∧ (searchUserRequest st u name page).queryParam "tempsuid" = some u
      ∧ (getSignRewardRequest st id month).queryParam "tempsuid" = none
      ∧ (getSignRewardRequest st id month).query = []
      ∧ (GetSignReward (sampleEnv netAllOk []) 1 (sampleWorld [])).2.sent
          = [getSignRewardRequest (sampleWorld []).state 1 "2025-01"]
      ∧ (GetSignReward (sampleEnv netAllOk []) 1 (sampleWorld [])).2.uuidsDrawn = 0
      ∧ (GetSignReward (sampleEnv netAllOk []) 1 (sampleWorld [])).2.sent.map
          (fun r => r.queryParam "tempsuid") = [none]
      ∧ (SignIn (sampleEnv netAllOk []) (sampleWorld [])).2.sent.map
          (fun r => r.queryParam "tempsuid") = [some "uuid-0"] := by
  refine ⟨?_, ?_, ?_, ?_, ?_, ?_, ?_, by decide, by decide, by decide, by decide⟩
  · simp [Request.queryParam, bindInfoRequest, List.find?]
  · by_cases h : userId = "" <;> simp [Request.queryParam, userInfoRequest, List.find?, h]
  · simp [Request.queryParam, signInRequest, List.find?]
  · simp [Request.queryParam, signRewardListRequest, List.find?]
  · simp [Request.queryParam, searchUserRequest, List.find?]
  · simp [Request.queryParam, getSignRewardRequest]
  · simp [getSignRewardRequest]


/-! ## The cookie check -/

theorem HasCookie_false (w : World) (hc : w.state.config.Cookie = "") :
    HasCookie w.state = false := by
  simp [HasCookie, hc]

/-- C11: with an empty cookie each of the six remote operations returns the
error "cookie未配置" and leaves the world as it was; in particular the log of
issued requests is unchanged. -/
theorem no_cookie_no_request (env : Env) (w : World) (userId name groupName : String)
    (id : Int) (hc : w.state.config.Cookie = "") :
    GetBindInfo env w = (some "cookie未配置", w)
      ∧ GetUserInfo env userId w = ((none, some "cookie未配置"), w)
      ∧ SignIn env w = ((none, some "cookie未配置"), w)
      ∧ SignRewardList env w = ((none, some "cookie未配置"), w)
      ∧ GetSignReward env id w = ((none, some "cookie未配置"), w)
      ∧ SearchUser env name groupName w = ((none, some "cookie未配置"), w)
      ∧ (GetBindInfo env w).2.sent = w.sent
      ∧ (GetUserInfo env userId w).2.sent = w.sent
      ∧ (SignIn env w).2.sent = w.sent
      ∧ (SignRewardList env w).2.sent = w.sent
      ∧ (GetSignReward env id w).2.sent = w.sent
      ∧ (SearchUser env name groupName w).2.sent = w.sent := by
  have h := HasCookie_false w hc
  have h1 : GetBindInfo env w = (some "cookie未配置", w) := by
    unfold GetBindInfo; simp [h]
  have h2 : GetUserInfo env userId w = ((none, some "cookie未配置"), w) := by
    unfold GetUserInfo; simp [h]
  have h3 : SignIn env w = ((none, some "cookie未配置"), w) := SignIn_no_cookie env w hc
  have h4 : SignRewardList env w = ((none, some "cookie未配置"), w) :=
    SignRewardList_no_cookie env w hc
  have h5 : GetSignReward env id w = ((none, some "cookie未配置"), w) := by
    unfold GetSignReward; simp [h]
  have h6 : SearchUser env name groupName w = ((none, some "cookie未配置"), w) := by
    unfold SearchUser; simp [h]
  refine ⟨h1, h2, h3, h4, h5, h6, ?_, ?_, ?_, ?_, ?_, ?_⟩
  · rw [h1]
  · rw [h2]
  · rw [h3]
  · rw [h4]
  · rw [h5]
  · rw [h6]

/-- C11 (witness): a world without a cookie; `SignIn` and `SearchUser` return the
error and the log stays empty. -/
theorem no_cookie_no_request_witness :
    SignIn (sampleEnv netAllOk [])
        { sampleWorld [] with state := ⟨⟨"UA", ""⟩, [], Time.zero⟩ }
      = ((none, some "cookie未配置"),
          { sampleWorld [] with state := ⟨⟨"UA", ""⟩, [], Time.zero⟩ })
    ∧ (SearchUser (sampleEnv netAllOk []) "A" ""
        { sampleWorld [] with state := ⟨⟨"UA", ""⟩, [], Time.zero⟩ }).2.sent = [] :=
  ⟨(no_cookie_no_request (sampleEnv netAllOk [])
      { sampleWorld [] with state := ⟨⟨"UA", ""⟩, [], Time.zero⟩ } "" "A" "" 1 rfl).2.2.1,
    (no_cookie_no_request (sampleEnv netAllOk [])
      { sampleWorld [] with state := ⟨⟨"UA", ""⟩, [], Time.zero⟩ } "" "A" "" 1 rfl).2.2.2.2.2.2.2.2.2.2.2⟩


/-! ## `SearchUser` -/

theorem GetAreaName_empty : GetAreaName "" = "" := by decide

theorem matchUser_cons_of_matches (name g : String) (c : UserProfile) (rest : List UserProfile)
    (h : Matches name g c) :
    matchUser name g (GetAreaName g) (c :: rest) = some (parseUserInfo c) := by
  obtain ⟨hn, hs⟩ := h
  unfold matchUser
  rw [if_pos hn]
  by_cases hg : g = ""
  · subst hg
    simp [GetAreaName_empty]
  · rcases hs with h0 | h1 | ⟨h2, h3⟩
    · exact absurd h0 hg
    · simp [hg, h1]
    · by_cases h1 : c.GroupName = g
      · simp [hg, h1]
      · simp [hg, h1, h2, h3]

theorem matchUser_cons_of_not (name g : String) (c : UserProfile) (rest : List UserProfile)
    (h : ¬ Matches name g c) :
    matchUser name g (GetAreaName g) (c :: rest) = matchUser name g (GetAreaName g) rest := by
  unfold Matches at h
  conv => lhs; unfold matchUser
  by_cases hn : c.CharacterName = name
  · rw [if_pos hn]
    have hs : ¬ (g = "" ∨ c.GroupName = g ∨
        (GetAreaName g ≠ "" ∧ c.AreaName = GetAreaName g)) := fun hs => h ⟨hn, hs⟩
    simp only [not_or] at hs
    obtain ⟨hg, h1, h2⟩ := hs
    rw [if_neg (fun hh => hg hh.1), if_neg (fun hh => h1 hh.2), if_neg h2]
  · rw [if_neg hn]

theorem matchUser_none (name g : String) :
    ∀ data : List UserProfile, (∀ c ∈ data, ¬ Matches name g c) →
      matchUser name g (GetAreaName g) data = none := by
  intro data
  induction data with
  | nil => intro _; rfl
  | cons c rest ih =>
    intro h
    rw [matchUser_cons_of_not name g c rest (h c (List.mem_cons_self c rest))]
    exact ih (fun x hx => h x (List.mem_cons_of_mem c hx))

theorem matchUser_first (name g : String) (u : UserProfile) (post : List UserProfile) :
    ∀ pre : List UserProfile, (∀ c ∈ pre, ¬ Matches name g c) → Matches name g u →
      matchUser name g (GetAreaName g) (pre ++ u :: post) = some (parseUserInfo u) := by
  intro pre
  induction pre with
  | nil => intro _ hu; exact matchUser_cons_of_matches name g u post hu
  | cons c rest ih =>
    intro h hu
    rw [List.cons_append,
      matchUser_cons_of_not name g c _ (h c (List.mem_cons_self c rest))]
    exact ih (fun x hx => h x (List.mem_cons_of_mem c hx)) hu

theorem matchUser_some (name g : String) :
    ∀ (data : List UserProfile) (info : UserInfo),
      matchUser name g (GetAreaName g) data = some info →
      ∃ u ∈ data, Matches name g u ∧ info = parseUserInfo u := by
  intro data
  induction data with
  | nil => intro info h; simp [matchUser] at h
  | cons c rest ih =>
    intro info h
    by_cases hm : Matches name g c
    · rw [matchUser_cons_of_matches name g c rest hm] at h
      exact ⟨c, List.mem_cons_self c rest, hm, (Option.some.inj h).symm⟩
    · rw [matchUser_cons_of_not name g c rest hm] at h
      obtain ⟨u, hu, h1, h2⟩ := ih info h
      exact ⟨u, List.mem_cons_of_mem c hu, h1, h2⟩

theorem afterPages_zero (env : Env) (name : String) (page : Nat) (w : World) :
    afterPages env name page 0 w = w := by
  cases w
  simp [afterPages, pageRequests]

theorem afterPages_one (env : Env) (name : String) (page : Nat) (w : World) :
    afterPages env name page 1 w =
      { w with
        uuidsDrawn := w.uuidsDrawn + 1
        sent := w.sent ++ [searchUserRequest w.state (env.uuid w.uuidsDrawn) name page] } := by
  simp [afterPages, pageRequests, List.range_succ]

theorem pageRequests_succ (env : Env) (st : AppState) (name : String) (u0 page k : Nat) :
    pageRequests env st name u0 page (k + 1) =
      searchUserRequest st (env.uuid u0) name page
        :: pageRequests env st name (u0 + 1) (page + 1) k := by
  unfold pageRequests
  rw [List.range_succ_eq_map]
  simp only [List.map_cons, List.map_map, Nat.add_zero]
  congr 1
  apply List.map_congr_left
  intro i _
  simp only [Function.comp]
  rw [Nat.add_assoc u0 1 i, Nat.add_assoc page 1 i, Nat.add_comm 1 i]

theorem afterPages_succ (env : Env) (name : String) (page k : Nat) (w : World) :
    afterPages env name (page + 1) k (afterPages env name page 1 w)
      = afterPages env name page (k + 1) w := by
  rw [afterPages_one]
  unfold afterPages
  simp only [pageRequests_succ, List.append_assoc, List.singleton_append]
  rw [Nat.add_assoc w.uuidsDrawn 1 k, Nat.add_comm 1 k]

theorem afterPages_snoc (env : Env) (name : String) (page k : Nat) (w : World) :
    afterPages env name (page + k) 1 (afterPages env name page k w)
      = afterPages env name page (k + 1) w := by
  simp [afterPages, pageRequests, List.range_succ, Nat.add_assoc]

theorem afterPages_state (env : Env) (name : String) (page k : Nat) (w : World) :
    (afterPages env name page k w).state = w.state := rfl

theorem afterPages_sent_length (env : Env) (name : String) (page k : Nat) (w : World) :
    (afterPages env name page k w).sent.length = w.sent.length + k := by
  simp [afterPages, pageRequests]

theorem searchPages_step (env : Env) (name g a : String) (left page : Nat) (w : World)
    (data : List UserProfile) (h : PageOk env w.sent.length data) :
    searchPages env name g a (left + 1) page w =
      if data.length = 0 then
        ((none, some ("未找到用户: " ++ name)), afterPages env name page 1 w)
      else
        match matchUser name g a data with
        | some found => ((some found, none), afterPages env name page 1 w)
        | none => searchPages env name g a left (page + 1) (afterPages env name page 1 w) := by
  obtain ⟨resp, result, h1, h2, h3, h4⟩ := h
  rw [afterPages_one]
  conv => lhs; unfold searchPages
  simp only [newUUID, send, h1, h2, h3, h4, ne_eq, not_true_eq_false, if_false]

theorem searchPages_skip (env : Env) (name g a : String) :
    ∀ (k left page : Nat) (w : World),
      (∀ i, i < k → ∃ data, PageOk env (w.sent.length + i) data ∧ data ≠ []
        ∧ matchUser name g a data = none) →
      searchPages env name g a (left + k) page w
        = searchPages env name g a left (page + k) (afterPages env name page k w) := by
  intro k
  induction k with
  | zero =>
    intro left page w _
    rw [afterPages_zero]
    rfl
  | succ k ih =>
    intro left page w h
    obtain ⟨data, hok, hne, hnone⟩ := h 0 (Nat.succ_pos k)
    have hlen : data.length ≠ 0 := fun hl => hne (List.length_eq_zero.mp hl)
    rw [← Nat.add_assoc, searchPages_step env name g a (left + k) page w data hok,
      if_neg hlen]
    simp only [hnone]
    rw [ih left (page + 1) (afterPages env name page 1 w), afterPages_succ,
      Nat.add_assoc page 1 k, Nat.add_comm 1 k]
    intro i hi
    rw [afterPages_sent_length, Nat.add_assoc w.sent.length 1 i, Nat.add_comm 1 i]
    exact h (i + 1) (Nat.succ_lt_succ hi)


theorem searchPages_fail_or_page (env : Env) (name g a : String) (left page : Nat)
    (w : World) :
    (∃ data, PageOk env w.sent.length data)
      ∨ (∃ e, searchPages env name g a (left + 1) page w
          = ((none, some e), afterPages env name page 1 w)) := by
  rw [afterPages_one]
  cases h1 : env.net w.sent.length with
  | error e =>
    right
    refine ⟨"请求失败: " ++ e, ?_⟩
    unfold searchPages
    simp only [newUUID, send, h1]
  | ok resp =>
    cases h2 : env.unmarshalSearchResponse resp.Body with
    | error e =>
      right
      refine ⟨"解析响应失败: " ++ e, ?_⟩
      unfold searchPages
      simp only [newUUID, send, h1, h2]
    | ok result =>
      by_cases h3 : result.Code = 10000
      · cases h4 : env.unmarshalUserProfiles result.Data with
        | error e =>
          right
          refine ⟨"解析Data数据失败: " ++ e, ?_⟩
          unfold searchPages
          simp only [newUUID, send, h1, h2, h3, h4, ne_eq, not_true_eq_false, if_false]
        | ok data => exact Or.inl ⟨data, resp, result, h1, h2, h3, h4⟩
      · right
        refine ⟨"错误码" ++ toString result.Code, ?_⟩
        unfold searchPages
        simp only [newUUID, send, h1, h2, ne_eq, h3, not_false_eq_true, if_true]

theorem searchPages_trace (env : Env) (name g a : String) :
    ∀ (left page : Nat) (w : World),
      ∃ k, k ≤ left ∧ (searchPages env name g a left page w).2 = afterPages env name page k w
      := by
  intro left
  induction left with
  | zero =>
    intro page w
    exact ⟨0, le_refl _, by rw [afterPages_zero]; rfl⟩
  | succ left ih =>
    intro page w
    rcases searchPages_fail_or_page env name g a left page w with ⟨data, hok⟩ | ⟨e, he⟩
    · rw [searchPages_step env name g a left page w data hok]
      by_cases hl : data.length = 0
      · rw [if_pos hl]
        exact ⟨1, Nat.succ_le_succ (Nat.zero_le left), rfl⟩
      · rw [if_neg hl]
        cases hm : matchUser name g a data with
        | some found => exact ⟨1, Nat.succ_le_succ (Nat.zero_le left), rfl⟩
        | none =>
          obtain ⟨k, hk, hw⟩ := ih (page + 1) (afterPages env name page 1 w)
          refine ⟨k + 1, Nat.succ_le_succ hk, ?_⟩
          simp only []
          rw [hw, afterPages_succ]
    · rw [he]
      exact ⟨1, Nat.succ_le_succ (Nat.zero_le left), rfl⟩

theorem searchPages_sound (env : Env) (name g : String) :
    ∀ (left page : Nat) (w : World) (info : UserInfo),
      (searchPages env name g (GetAreaName g) left page w).1.1 = some info →
      ∃ n data u, PageOk env n data ∧ u ∈ data ∧ Matches name g u ∧ info = parseUserInfo u
      := by
  intro left
  induction left with
  | zero =>
    intro page w info h
    simp [searchPages] at h
  | succ left ih =>
    intro page w info h
    rcases searchPages_fail_or_page env name g (GetAreaName g) left page w with
      ⟨data, hok⟩ | ⟨e, he⟩
    · rw [searchPages_step env name g (GetAreaName g) left page w data hok] at h
      by_cases hl : data.length = 0
      · rw [if_pos hl] at h
        exact Option.noConfusion h
      · rw [if_neg hl] at h
        cases hm : matchUser name g (GetAreaName g) data with
        | some found =>
          rw [hm] at h
          simp only [Option.some.injEq] at h
          subst h
          obtain ⟨u, hu, h1, h2⟩ := matchUser_some name g data found hm
          exact ⟨w.sent.length, data, u, hok, hu, h1, h2⟩
        | none =>
          rw [hm] at h
          exact ih _ _ info h
    · rw [he] at h
      exact Option.noConfusion h

theorem SearchUser_no_cookie_world (env : Env) (w : World) (name server : String)
    (hc : w.state.config.Cookie = "") :
    (SearchUser env name server w).2 = w := by
  unfold SearchUser
  simp [HasCookie, hc]

theorem SearchUser_cookie (env : Env) (name server : String) (w : World)
    (hc : w.state.config.Cookie ≠ "") :
    SearchUser env name server w
      = searchPages env name server (GetAreaName server) 30 1 w := by
  unfold SearchUser
  simp [HasCookie, hc]

theorem SearchUser_skip (env : Env) (name server : String) (w : World) (k : Nat)
    (pages : Nat → List UserProfile)
    (hc : w.state.config.Cookie ≠ "") (hk : k ≤ 30)
    (hpages : ∀ i, i < k → PageOk env (w.sent.length + i) (pages i) ∧ pages i ≠ []
      ∧ ∀ c ∈ pages i, ¬ Matches name server c) :
    SearchUser env name server w
      = searchPages env name server (GetAreaName server) (30 - k) (1 + k)
          (afterPages env name 1 k w) := by
  rw [SearchUser_cookie env name server w hc]
  have h30 : 30 = (30 - k) + k := by omega
  conv => lhs; rw [h30]
  apply searchPages_skip
  intro i hi
  obtain ⟨h1, h2, h3⟩ := hpages i hi
  exact ⟨pages i, h1, h2, matchUser_none name server (pages i) h3⟩

theorem pageRequests_pages (env : Env) (st : AppState) (name : String) (u0 page k : Nat) :
    (pageRequests env st name u0 page k).map (fun r => r.queryParam "page")
      = (List.range k).map (fun i => some (toString (page + i))) := by
  unfold pageRequests
  rw [List.map_map]
  apply List.map_congr_left
  intro i _
  simp [Function.comp, Request.queryParam, searchUserRequest, List.find?]


/-- C12: `SearchUser` requests the pages 1, 2, ... in order, `k ≤ 30` of them, and
nothing else; when the cookie is set and each of the 30 requests is answered
with a full 60-row page that holds no matching candidate, it issues exactly 30
requests and returns the error "未找到用户: " followed by the searched name. -/
theorem SearchUser_page_bound (env : Env) (name server : String) (w : World) :
    (∃ k, k ≤ 30
        ∧ (SearchUser env name server w).2 = afterPages env name 1 k w
        ∧ ((SearchUser env name server w).2.sent.drop w.sent.length).map
            (fun r => r.queryParam "page")
          = (List.range k).map (fun i => some (toString (1 + i))))
      ∧ (w.state.config.Cookie ≠ "" →
          (∀ i, i < 30 → ∃ data, PageOk env (w.sent.length + i) data ∧ data.length = 60
            ∧ ∀ c ∈ data, ¬ Matches name server c) →
          (SearchUser env name server w).1 = (none, some ("未找到用户: " ++ name))
          ∧ (SearchUser env name server w).2 = afterPages env name 1 30 w
          ∧ (SearchUser env name server w).2.sent.length = w.sent.length + 30) := by
  constructor
  · have key : ∃ k, k ≤ 30 ∧ (SearchUser env name server w).2 = afterPages env name 1 k w := by
      by_cases hc : w.state.config.Cookie = ""
      · refine ⟨0, Nat.zero_le _, ?_⟩
        rw [(SearchUser_no_cookie_world env w name server hc), afterPages_zero]
      · rw [SearchUser_cookie env name server w hc]
        exact searchPages_trace env name server (GetAreaName server) 30 1 w
    obtain ⟨k, hk, hw⟩ := key
    refine ⟨k, hk, hw, ?_⟩
    rw [hw]
    simp only [afterPages, List.drop_left, pageRequests_pages]
  · intro hc hfull
    have hfull2 : ∀ i, i < 30 → ∃ data, PageOk env (w.sent.length + i) data ∧ data ≠ []
        ∧ matchUser name server (GetAreaName server) data = none := by
      intro i hi
      obtain ⟨data, h1, h2, h3⟩ := hfull i hi
      refine ⟨data, h1, ?_, matchUser_none name server data h3⟩
      intro hnil
      rw [hnil] at h2
      exact absurd h2 (by decide)
    have hrun : SearchUser env name server w
        = ((none, some ("未找到用户: " ++ name)), afterPages env name 1 30 w) := by
      rw [SearchUser_cookie env name server w hc,
        searchPages_skip env name server (GetAreaName server) 30 0 1 w hfull2]
      rfl
    refine ⟨by rw [hrun], by rw [hrun], ?_⟩
    rw [hrun, afterPages_sent_length]

/-- C12 (witness): every page holds 60 candidates named "B"; the search for "A"
sends 30 requests and reports that "A" was not found. -/
theorem SearchUser_page_bound_witness :
    (SearchUser (sampleSearchEnv (fun _ => List.replicate 60 (sampleProfile "B" "g" "a" "u")))
        "A" "" (sampleWorld [])).1 = (none, some "未找到用户: A")
      ∧ (SearchUser (sampleSearchEnv (fun _ => List.replicate 60 (sampleProfile "B" "g" "a" "u")))
        "A" "" (sampleWorld [])).2.sent.length = 30 :=
  ⟨((SearchUser_page_bound
      (sampleSearchEnv (fun _ => List.replicate 60 (sampleProfile "B" "g" "a" "u")))
      "A" "" (sampleWorld [])).2 (by decide)
      (fun i _ => ⟨List.replicate 60 (sampleProfile "B" "g" "a" "u"),
        ⟨⟨200, [UInt8.ofNat (0 + i)]⟩, ⟨10000, [UInt8.ofNat (0 + i)], ""⟩, rfl, rfl, rfl, rfl⟩,
        List.length_replicate 60 _,
        fun c hc hm => absurd ((List.eq_of_mem_replicate hc) ▸ hm.1) (by decide)⟩)).1,
    ((SearchUser_page_bound
      (sampleSearchEnv (fun _ => List.replicate 60 (sampleProfile "B" "g" "a" "u")))
      "A" "" (sampleWorld [])).2 (by decide)
      (fun i _ => ⟨List.replicate 60 (sampleProfile "B" "g" "a" "u"),
        ⟨⟨200, [UInt8.ofNat (0 + i)]⟩, ⟨10000, [UInt8.ofNat (0 + i)], ""⟩, rfl, rfl, rfl, rfl⟩,
        List.length_replicate 60 _,
        fun c hc hm => absurd ((List.eq_of_mem_replicate hc) ▸ hm.1) (by decide)⟩)).2.2⟩


/-- C13 (amended): when the first `k < 30` pages are answered with non-empty
lists that hold no matching candidate, and page `k+1` holds the candidate `u`
after rows that do not match, `SearchUser` returns `u` after `k+1` requests:
the first match in page order, then row order.  With an empty server argument a
candidate matches exactly when its character name equals the searched name.
With a server argument that is not a region alias it matches exactly when the
name and the group name are equal; in general a candidate with the right name
and a different group name is skipped unless the argument resolves through
`GetAreaName` to the candidate's area name. -/
theorem SearchUser_first_match (env : Env) (name server : String) (w : World) (k : Nat)
    (pages : Nat → List UserProfile) (pre post : List UserProfile) (u : UserProfile)
    (hc : w.state.config.Cookie ≠ "") (hk : k < 30)
    (hpages : ∀ i, i < k → PageOk env (w.sent.length + i) (pages i) ∧ pages i ≠ []
      ∧ ∀ c ∈ pages i, ¬ Matches name server c)
    (hpage : PageOk env (w.sent.length + k) (pre ++ u :: post))
    (hpre : ∀ c ∈ pre, ¬ Matches name server c) (hu : Matches name server u) :
    (SearchUser env name server w).1 = (some (parseUserInfo u), none)
      ∧ (SearchUser env name server w).2 = afterPages env name 1 (k + 1) w
      ∧ (∀ c : UserProfile, Matches name "" c ↔ c.CharacterName = name)
      ∧ (server ≠ "" → GetAreaName server = "" →
          ∀ c : UserProfile, Matches name server c
            ↔ (c.CharacterName = name ∧ c.GroupName = server))
      ∧ (server ≠ "" → ∀ c : UserProfile, c.CharacterName = name → c.GroupName ≠ server →
          (¬ Matches name server c
            ↔ ¬ (GetAreaName server ≠ "" ∧ c.AreaName = GetAreaName server))) := by
  have hrun : SearchUser env name server w
      = ((some (parseUserInfo u), none), afterPages env name 1 (k + 1) w) := by
    rw [SearchUser_skip env name server w k pages hc (Nat.le_of_lt hk) hpages]
    have hleft : 30 - k = (29 - k) + 1 := by omega
    have hpage2 : PageOk env (afterPages env name 1 k w).sent.length (pre ++ u :: post) := by
      rw [afterPages_sent_length]; exact hpage
    rw [hleft, searchPages_step env name server (GetAreaName server) (29 - k) (1 + k) _ _ hpage2,
      if_neg (by simp), matchUser_first name server u post pre hpre hu]
    simp only []
    rw [afterPages_snoc]
  refine ⟨by rw [hrun], by rw [hrun], ?_, ?_, ?_⟩
  · intro c
    simp [Matches]
  · intro hs ha c
    simp [Matches, hs, ha]
  · intro hs c hn hg
    simp [Matches, hs, hn, hg]

/-- C13 (witness): the first page holds only a candidate named "B", the second
page holds "B" and then "A" on server "s1"; the search for "A" on "s1" returns
that candidate after two requests. -/
theorem SearchUser_first_match_witness :
    (SearchUser
        (sampleSearchEnv (fun n =>
          if n = 0 then [sampleProfile "B" "s1" "a" "u0"]
          else [sampleProfile "B" "s1" "a" "u1", sampleProfile "A" "s1" "a" "u2"]))
        "A" "s1" (sampleWorld [])).1
      = (some ⟨"u2", "A", "s1", "a"⟩, none) :=
  (SearchUser_first_match
    (sampleSearchEnv (fun n =>
      if n = 0 then [sampleProfile "B" "s1" "a" "u0"]
      else [sampleProfile "B" "s1" "a" "u1", sampleProfile "A" "s1" "a" "u2"]))
    "A" "s1" (sampleWorld []) 1
    (fun _ => [sampleProfile "B" "s1" "a" "u0"])
    [sampleProfile "B" "s1" "a" "u1"] [] (sampleProfile "A" "s1" "a" "u2")
    (by decide) (by decide)
    (fun i hi => by
      have h0 : i = 0 := by omega
      subst h0
      exact ⟨⟨⟨200, [0]⟩, ⟨10000, [0], ""⟩, rfl, rfl, rfl, rfl⟩, by decide,
        fun c hc hm => by
          rw [List.mem_singleton] at hc
          subst hc
          exact absurd hm.1 (by decide)⟩)
    ⟨⟨200, [1]⟩, ⟨10000, [1], ""⟩, rfl, rfl, rfl, rfl⟩
    (fun c hc hm => by
      rw [List.mem_singleton] at hc
      subst hc
      exact absurd hm.1 (by decide))
    ⟨rfl, Or.inr (Or.inl rfl)⟩).1

/-- C13 (counterexample): the server argument "猫" is given, the first candidate
named "A" has the group name "紫水栈桥", which differs from "猫", and the second
candidate named "A" has the group name "猫"; the first one is not skipped but
returned, because "猫" resolves to the region "猫小胖", its area name. -/
theorem SearchUser_group_differs_counterexample :
    (SearchUser
        (sampleSearchEnv (fun _ =>
          [sampleProfile "A" "紫水栈桥" "猫小胖" "u1", sampleProfile "A" "猫" "x" "u2"]))
        "A" "猫" (sampleWorld [])).1
      = (some ⟨"u1", "A", "紫水栈桥", "猫小胖"⟩, none)
    ∧ (sampleProfile "A" "紫水栈桥" "猫小胖" "u1").CharacterName = "A"
    ∧ (sampleProfile "A" "紫水栈桥" "猫小胖" "u1").GroupName ≠ "猫"
    ∧ (sampleProfile "A" "猫" "x" "u2").GroupName = "猫" := by
  refine ⟨?_, ?_, ?_, ?_⟩ <;> decide

/-- C14: every user returned by `SearchUser name server` has the character name
`name`; for a non-empty `server` its group name equals `server`, or `server`
resolves through `GetAreaName` to a non-empty region that equals its area name;
and its uuid, name, group and area are those of one candidate of a decoded
page. -/
theorem SearchUser_sound (env : Env) (name server : String) (w : World) (info : UserInfo)
    (h : (SearchUser env name server w).1.1 = some info) :
    info.UserName = name
      ∧ (server ≠ "" → info.GroupName = server
          ∨ (GetAreaName server ≠ "" ∧ info.AreaName = GetAreaName server))
      ∧ ∃ n data u, PageOk env n data ∧ u ∈ data
          ∧ info.UUID = u.UUID ∧ info.UserName = u.CharacterName
          ∧ info.GroupName = u.GroupName ∧ info.AreaName = u.AreaName := by
  have hc : w.state.config.Cookie ≠ "" := by
    intro hc
    unfold SearchUser at h
    simp [HasCookie, hc] at h
  rw [SearchUser_cookie env name server w hc] at h
  obtain ⟨n, data, u, hok, hu, hm, hinfo⟩ := searchPages_sound env name server 30 1 w info h
  subst hinfo
  refine ⟨hm.1, ?_, n, data, u, hok, hu, rfl, rfl, rfl, rfl⟩
  intro hs
  rcases hm.2 with h0 | h1 | h2
  · exact absurd h0 hs
  · exact Or.inl h1
  · exact Or.inr h2

/-- C14 (witness): the search for "A" with the alias "猫" returns a candidate
named "A" whose area is the region "猫小胖". -/
theorem SearchUser_sound_witness :
    (⟨"u1", "A", "紫水栈桥", "猫小胖"⟩ : UserInfo).UserName = "A"
      ∧ ("猫" ≠ "" → (⟨"u1", "A", "紫水栈桥", "猫小胖"⟩ : UserInfo).GroupName = "猫"
          ∨ (GetAreaName "猫" ≠ ""
            ∧ (⟨"u1", "A", "紫水栈桥", "猫小胖"⟩ : UserInfo).AreaName = GetAreaName "猫")) :=
  ⟨(SearchUser_sound
      (sampleSearchEnv (fun _ =>
        [sampleProfile "A" "紫水栈桥" "猫小胖" "u1", sampleProfile "A" "猫" "x" "u2"]))
      "A" "猫" (sampleWorld []) ⟨"u1", "A", "紫水栈桥", "猫小胖"⟩ (by decide)).1,
    (SearchUser_sound
      (sampleSearchEnv (fun _ =>
        [sampleProfile "A" "紫水栈桥" "猫小胖" "u1", sampleProfile "A" "猫" "x" "u2"]))
      "A" "猫" (sampleWorld []) ⟨"u1", "A", "紫水栈桥", "猫小胖"⟩ (by decide)).2.1⟩

/-- C15: when the first `k < 30` pages are answered with non-empty lists without
a match and page `k+1` decodes to an empty candidate list, `SearchUser` returns
the error "未找到用户: " followed by the name, and the request for page `k+1` is
the last one it issues. -/
theorem SearchUser_stops_at_empty_page (env : Env) (name server : String) (w : World)
    (k : Nat) (pages : Nat → List UserProfile)
    (hc : w.state.config.Cookie ≠ "") (hk : k < 30)
    (hpages : ∀ i, i < k → PageOk env (w.sent.length + i) (pages i) ∧ pages i ≠ []
      ∧ ∀ c ∈ pages i, ¬ Matches name server c)
    (hempty : PageOk env (w.sent.length + k) []) :
    (SearchUser env name server w).1 = (none, some ("未找到用户: " ++ name))
      ∧ (SearchUser env name server w).2 = afterPages env name 1 (k + 1) w
      ∧ (SearchUser env name server w).2.sent.length = w.sent.length + (k + 1)
      ∧ ((SearchUser env name server w).2.sent.drop w.sent.length).map
            (fun r => r.queryParam "page")
          = (List.range (k + 1)).map (fun i => some (toString (1 + i))) := by
  have hrun : SearchUser env name server w
      = ((none, some ("未找到用户: " ++ name)), afterPages env name 1 (k + 1) w) := by
    rw [SearchUser_skip env name server w k pages hc (Nat.le_of_lt hk) hpages]
    have hleft : 30 - k = (29 - k) + 1 := by omega
    have hpage2 : PageOk env (afterPages env name 1 k w).sent.length [] := by
      rw [afterPages_sent_length]; exact hempty
    rw [hleft, searchPages_step env name server (GetAreaName server) (29 - k) (1 + k) _ _ hpage2,
      if_pos List.length_nil, afterPages_snoc]
  refine ⟨by rw [hrun], by rw [hrun], ?_, ?_⟩
  · rw [hrun, afterPages_sent_length]
  · rw [hrun]
    simp only [afterPages, List.drop_left, pageRequests_pages]

/-- C15 (witness): the first page holds a candidate named "B", the second page
is empty; the search for "A" stops after two requests. -/
theorem SearchUser_stops_at_empty_page_witness :
    (SearchUser
        (sampleSearchEnv (fun n => if n = 0 then [sampleProfile "B" "s1" "a" "u0"] else []))
        "A" "" (sampleWorld [])).1 = (none, some "未找到用户: A")
      ∧ (SearchUser
        (sampleSearchEnv (fun n => if n = 0 then [sampleProfile "B" "s1" "a" "u0"] else []))
        "A" "" (sampleWorld [])).2.sent.length = 2 :=
  ⟨(SearchUser_stops_at_empty_page
      (sampleSearchEnv (fun n => if n = 0 then [sampleProfile "B" "s1" "a" "u0"] else []))
      "A" "" (sampleWorld []) 1 (fun _ => [sampleProfile "B" "s1" "a" "u0"])
      (by decide) (by decide)
      (fun i hi => by
        have h0 : i = 0 := by omega
        subst h0
        exact ⟨⟨⟨200, [0]⟩, ⟨10000, [0], ""⟩, rfl, rfl, rfl, rfl⟩, by decide,
          fun c hc hm => by
            rw [List.mem_singleton] at hc
            subst hc
            exact absurd hm.1 (by decide)⟩)
      ⟨⟨200, [1]⟩, ⟨10000, [1], ""⟩, rfl, rfl, rfl, rfl⟩).1,
    (SearchUser_stops_at_empty_page
      (sampleSearchEnv (fun n => if n = 0 then [sampleProfile "B" "s1" "a" "u0"] else []))
      "A" "" (sampleWorld []) 1 (fun _ => [sampleProfile "B" "s1" "a" "u0"])
      (by decide) (by decide)
      (fun i hi => by
        have h0 : i = 0 := by omega
        subst h0
        exact ⟨⟨⟨200, [0]⟩, ⟨10000, [0], ""⟩, rfl, rfl, rfl, rfl⟩, by decide,
          fun c hc hm => by
            rw [List.mem_singleton] at hc
            subst hc
            exact absurd hm.1 (by decide)⟩)
      ⟨⟨200, [1]⟩, ⟨10000, [1], ""⟩, rfl, rfl, rfl, rfl⟩).2.2.1⟩


/-! ## `ParseFFInfo` -/

/-- C16: `ParseFFInfo` parses the in-memory snapshot when it is non-empty, whatever
the snapshot file holds; when the in-memory snapshot is empty it parses the
content of the snapshot file; when the in-memory snapshot is empty and the file
cannot be read it returns the error "数据尚未获取" and does not crash. -/
theorem ParseFFInfo_sources (env : Env) (w : World) :
    (w.state.responseData ≠ [] →
        ParseFFInfo env w = parseSnapshot env w.state.responseData
        ∧ ∀ file, ParseFFInfo env { w with outputFile := file } = ParseFFInfo env w)
      ∧ (w.state.responseData = [] → ∀ fileData, w.outputFile = some fileData →
        ParseFFInfo env w = parseSnapshot env fileData)
      ∧ (w.state.responseData = [] → w.outputFile = none →
        ParseFFInfo env w = .done (none, some "数据尚未获取")) := by
  refine ⟨?_, ?_, ?_⟩
  · intro h
    have hl : w.state.responseData.length ≠ 0 := fun hl => h (List.length_eq_zero.mp hl)
    have key : ∀ file, ParseFFInfo env { w with outputFile := file }
        = parseSnapshot env w.state.responseData := by
      intro file
      unfold ParseFFInfo GetResponseData
      simp only [if_neg hl]
    refine ⟨?_, fun file => ?_⟩
    · unfold ParseFFInfo GetResponseData
      simp only [if_neg hl]
    · rw [key file]
      unfold ParseFFInfo GetResponseData
      simp only [if_neg hl]
  · intro h fileData hf
    unfold ParseFFInfo GetResponseData
    simp only [h, hf, List.length_nil, if_true]
  · intro h hf
    unfold ParseFFInfo GetResponseData
    simp only [h, hf, List.length_nil, if_true]

/-- C16 (witness): with memory "old" the file is not consulted; with empty memory
and a file the file is parsed (here the decoder rejects it: an error, no
crash); with neither the error is "数据尚未获取". -/
theorem ParseFFInfo_sources_witness :
    ParseFFInfo (sampleEnv netAllOk []) (sampleWorld [111, 108, 100])
        = parseSnapshot (sampleEnv netAllOk []) [111, 108, 100]
      ∧ ParseFFInfo (sampleEnv netAllOk []) { sampleWorld [] with outputFile := some [123, 125] }
        = parseSnapshot (sampleEnv netAllOk []) [123, 125]
      ∧ ParseFFInfo (sampleEnv netAllOk []) (sampleWorld [])
        = .done (none, some "数据尚未获取") :=
  ⟨((ParseFFInfo_sources (sampleEnv netAllOk []) (sampleWorld [111, 108, 100])).1
      (by decide)).1,
    (ParseFFInfo_sources (sampleEnv netAllOk [])
      { sampleWorld [] with outputFile := some [123, 125] }).2.1 rfl [123, 125] rfl,
    (ParseFFInfo_sources (sampleEnv netAllOk []) (sampleWorld [])).2.2 rfl rfl⟩

/-! ## `SaveMyBaseInfo`: memory and file -/

theorem GetUserInfo_cases (env : Env) (userId : String) (w : World) :
    (∃ e, GetUserInfo env userId w = ((none, some e), w))
      ∨ (∃ e, env.net w.sent.length = .error e
          ∧ GetUserInfo env userId w = ((none, some ("请求失败: " ++ e)),
            { w with
              uuidsDrawn := w.uuidsDrawn + 1
              sent := w.sent ++ [userInfoRequest w.state (env.uuid w.uuidsDrawn) userId] }))
      ∨ (∃ resp, env.net w.sent.length = .ok resp
          ∧ GetUserInfo env userId w = ((some (env.unmarshalUserInfoResp resp.Body).1, none),
            { w with
              uuidsDrawn := w.uuidsDrawn + 1
              sent := w.sent ++ [userInfoRequest w.state (env.uuid w.uuidsDrawn) userId] })) := by
  by_cases hc : w.state.config.Cookie = ""
  · left
    refine ⟨"cookie未配置", ?_⟩
    unfold GetUserInfo
    simp [HasCookie, hc]
  · right
    cases hn : env.net w.sent.length with
    | error e =>
      left
      refine ⟨e, rfl, ?_⟩
      unfold GetUserInfo
      simp only [HasCookie, hc, ne_eq, not_false_eq_true, decide_True, not_true_eq_false,
        if_false, newUUID, send, hn]
    | ok resp =>
      right
      refine ⟨resp, rfl, ?_⟩
      unfold GetUserInfo
      simp only [HasCookie, hc, ne_eq, not_false_eq_true, decide_True, not_true_eq_false,
        if_false, newUUID, send, hn]

/-- The three ways `SaveMyBaseInfo` ends: an error before anything is stored (the
state and the file are as before), a failed file write after the memory was
replaced, or success with memory and file replaced by the same bytes. -/
theorem SaveMyBaseInfo_cases (env : Env) (w : World) :
    (∃ e, (SaveMyBaseInfo env w).1 = some e
        ∧ (SaveMyBaseInfo env w).2.state = w.state
        ∧ (SaveMyBaseInfo env w).2.outputFile = w.outputFile)
      ∨ (∃ b e, env.writeFile w.writes = some e
        ∧ (∃ v, env.marshalUserInfoResp v = .ok b)
        ∧ (SaveMyBaseInfo env w).1 = some ("保存响应失败: " ++ e)
        ∧ (SaveMyBaseInfo env w).2.state.responseData = b
        ∧ (SaveMyBaseInfo env w).2.state.lastFetchAt = env.now w.clockReads
        ∧ (SaveMyBaseInfo env w).2.outputFile = env.failedWrite w.writes w.outputFile b)
      ∨ (∃ b, env.writeFile w.writes = none
        ∧ (∃ v, env.marshalUserInfoResp v = .ok b)
        ∧ (SaveMyBaseInfo env w).1 = none
        ∧ (SaveMyBaseInfo env w).2.state.responseData = b
        ∧ (SaveMyBaseInfo env w).2.state.lastFetchAt = env.now w.clockReads
        ∧ (SaveMyBaseInfo env w).2.outputFile = some b) := by
  have hne : OutputFile ≠ ConfigFile := by decide
  rcases GetUserInfo_cases env "" w with ⟨e, hg⟩ | ⟨e, _, hg⟩ | ⟨resp, _, hg⟩
  · left
    refine ⟨"获取数据失败: " ++ e, ?_, ?_, ?_⟩ <;>
      (unfold SaveMyBaseInfo; simp only [hg])
  · left
    refine ⟨"获取数据失败: " ++ ("请求失败: " ++ e), ?_, ?_, ?_⟩ <;>
      (unfold SaveMyBaseInfo; simp only [hg])
  · cases hm : env.marshalUserInfoResp (env.unmarshalUserInfoResp resp.Body).1 with
    | error e =>
      left
      refine ⟨"保存响应失败: " ++ ("编码infoResp失败: " ++ e), ?_, ?_, ?_⟩ <;>
        (unfold SaveMyBaseInfo; simp only [hg, saveBaseInfo, hm])
    | ok b =>
      right
      cases hw : env.writeFile w.writes with
      | some e =>
        left
        refine ⟨b, e, rfl, ⟨_, hm⟩, ?_, ?_, ?_, ?_⟩ <;>
          (unfold SaveMyBaseInfo
           simp only [hg, saveBaseInfo, hm, SetResponseData, timeNow, osWriteFile, hw,
             if_neg hne, if_true])
      | none =>
        right
        refine ⟨b, rfl, ⟨_, hm⟩, ?_, ?_, ?_, ?_⟩ <;>
          (unfold SaveMyBaseInfo
           simp only [hg, saveBaseInfo, hm, SetResponseData, timeNow, osWriteFile, hw,
             if_neg hne, if_true])

theorem GetUserInfo_fetched (env : Env) (userId : String) (w : World) (resp : Response)
    (hc : w.state.config.Cookie ≠ "") (hnet : env.net w.sent.length = .ok resp) :
    GetUserInfo env userId w = ((some (env.unmarshalUserInfoResp resp.Body).1, none),
      { w with
        uuidsDrawn := w.uuidsDrawn + 1
        sent := w.sent ++ [userInfoRequest w.state (env.uuid w.uuidsDrawn) userId] }) := by
  unfold GetUserInfo
  simp only [HasCookie, hc, ne_eq, not_false_eq_true, decide_True, not_true_eq_false,
    if_false, newUUID, send, hnet]

/-- C17 (amended): what `SaveMyBaseInfo` does to the cached snapshot, case by case.
Without a cookie, or when the request fails in transport, or when the fetched
struct cannot be encoded, it returns that error and the in-memory snapshot, its
fetch time and the snapshot file are what they were before the call.  When the
user info was fetched and encoded to `b` and the file write fails with `e`, it
returns "保存响应失败: " followed by `e`, and the in-memory snapshot is already
`b` with the new fetch time (the config is untouched).  When the write
succeeds it returns no error, and memory and file both hold `b`. -/
theorem SaveMyBaseInfo_error_memory (env : Env) (w : World) :
    (w.state.config.Cookie = "" →
        (SaveMyBaseInfo env w).1 = some "获取数据失败: cookie未配置"
        ∧ (SaveMyBaseInfo env w).2.state = w.state
        ∧ (SaveMyBaseInfo env w).2.outputFile = w.outputFile)
      ∧ (∀ e, w.state.config.Cookie ≠ "" → env.net w.sent.length = .error e →
        (SaveMyBaseInfo env w).1 = some ("获取数据失败: " ++ ("请求失败: " ++ e))
        ∧ (SaveMyBaseInfo env w).2.state = w.state
        ∧ (SaveMyBaseInfo env w).2.outputFile = w.outputFile)
      ∧ (∀ resp e, w.state.config.Cookie ≠ "" → env.net w.sent.length = .ok resp →
        env.marshalUserInfoResp (env.unmarshalUserInfoResp resp.Body).1 = .error e →
        (SaveMyBaseInfo env w).1 = some ("保存响应失败: " ++ ("编码infoResp失败: " ++ e))
        ∧ (SaveMyBaseInfo env w).2.state = w.state
        ∧ (SaveMyBaseInfo env w).2.outputFile = w.outputFile)
      ∧ (∀ resp b e, w.state.config.Cookie ≠ "" → env.net w.sent.length = .ok resp →
        env.marshalUserInfoResp (env.unmarshalUserInfoResp resp.Body).1 = .ok b →
        env.writeFile w.writes = some e →
        (SaveMyBaseInfo env w).1 = some ("保存响应失败: " ++ e)
        ∧ (SaveMyBaseInfo env w).2.state.responseData = b
        ∧ (SaveMyBaseInfo env w).2.state.lastFetchAt = env.now w.clockReads
        ∧ (SaveMyBaseInfo env w).2.state.config = w.state.config)
      ∧ (∀ resp b, w.state.config.Cookie ≠ "" → env.net w.sent.length = .ok resp →
        env.marshalUserInfoResp (env.unmarshalUserInfoResp resp.Body).1 = .ok b →
        env.writeFile w.writes = none →
        (SaveMyBaseInfo env w).1 = none
        ∧ (SaveMyBaseInfo env w).2.state.responseData = b
        ∧ (SaveMyBaseInfo env w).2.state.lastFetchAt = env.now w.clockReads
        ∧ (SaveMyBaseInfo env w).2.state.config = w.state.config
        ∧ (SaveMyBaseInfo env w).2.outputFile = some b) := by
  have hne : OutputFile ≠ ConfigFile := by decide
  refine ⟨?_, ?_, ?_, ?_, ?_⟩
  · intro hc
    have hg : GetUserInfo env "" w = ((none, some "cookie未配置"), w) := by
      unfold GetUserInfo
      simp [HasCookie, hc]
    refine ⟨?_, ?_, ?_⟩
    · unfold SaveMyBaseInfo
      simp only [hg]
      rfl
    · unfold SaveMyBaseInfo
      simp only [hg]
    · unfold SaveMyBaseInfo
      simp only [hg]
  · intro e hc hnet
    have hg : GetUserInfo env "" w = ((none, some ("请求失败: " ++ e)),
        { w with
          uuidsDrawn := w.uuidsDrawn + 1
          sent := w.sent ++ [userInfoRequest w.state (env.uuid w.uuidsDrawn) ""] }) := by
      unfold GetUserInfo
      simp only [HasCookie, hc, ne_eq, not_false_eq_true, decide_True, not_true_eq_false,
        if_false, newUUID, send, hnet]
    refine ⟨?_, ?_, ?_⟩ <;> (unfold SaveMyBaseInfo; simp only [hg])
  · intro resp e hc hnet hm
    have hg := GetUserInfo_fetched env "" w resp hc hnet
    refine ⟨?_, ?_, ?_⟩ <;> (unfold SaveMyBaseInfo; simp only [hg, saveBaseInfo, hm])
  · intro resp b e hc hnet hm hw
    have hg := GetUserInfo_fetched env "" w resp hc hnet
    refine ⟨?_, ?_, ?_, ?_⟩ <;>
      (unfold SaveMyBaseInfo
       simp only [hg, saveBaseInfo, hm, SetResponseData, timeNow, osWriteFile, hw,
         if_neg hne, if_true])
  · intro resp b hc hnet hm hw
    have hg := GetUserInfo_fetched env "" w resp hc hnet
    refine ⟨?_, ?_, ?_, ?_, ?_⟩ <;>
      (unfold SaveMyBaseInfo
       simp only [hg, saveBaseInfo, hm, SetResponseData, timeNow, osWriteFile, hw,
         if_neg hne, if_true])

/-- C17 (witness): on the sample world with the snapshot "old".  The file write
fails with "disk full" after the user info was fetched and encoded: the call
returns the write error and the memory already holds the new bytes and the
new fetch time.  The request fails in transport: the error is returned and
the state is untouched.  Everything succeeds: memory and file hold the new
bytes. -/
theorem SaveMyBaseInfo_error_memory_witness :
    ((SaveMyBaseInfo { sampleEnv netAllOk [] with writeFile := fun _ => some "disk full" }
          (sampleWorld [111, 108, 100])).1 = some ("保存响应失败: " ++ "disk full")
      ∧ (SaveMyBaseInfo { sampleEnv netAllOk [] with writeFile := fun _ => some "disk full" }
          (sampleWorld [111, 108, 100])).2.state.responseData = [123, 125]
      ∧ (SaveMyBaseInfo { sampleEnv netAllOk [] with writeFile := fun _ => some "disk full" }
          (sampleWorld [111, 108, 100])).2.state.lastFetchAt = ⟨2025, 1, 1⟩
      ∧ (SaveMyBaseInfo { sampleEnv netAllOk [] with writeFile := fun _ => some "disk full" }
          (sampleWorld [111, 108, 100])).2.state.config = ⟨"UA", "session"⟩)
    ∧ ((SaveMyBaseInfo (sampleEnv (netFailAt 0) []) (sampleWorld [111, 108, 100])).1
          = some ("获取数据失败: " ++ ("请求失败: " ++ "timeout"))
      ∧ (SaveMyBaseInfo (sampleEnv (netFailAt 0) []) (sampleWorld [111, 108, 100])).2.state
          = (sampleWorld [111, 108, 100]).state
      ∧ (SaveMyBaseInfo (sampleEnv (netFailAt 0) []) (sampleWorld [111, 108, 100])).2.outputFile
          = none)
    ∧ ((SaveMyBaseInfo (sampleEnv netAllOk []) (sampleWorld [111, 108, 100])).1 = none
      ∧ (SaveMyBaseInfo (sampleEnv netAllOk []) (sampleWorld [111, 108, 100])).2.state.responseData
          = [123, 125]
      ∧ (SaveMyBaseInfo (sampleEnv netAllOk []) (sampleWorld [111, 108, 100])).2.state.lastFetchAt
          = ⟨2025, 1, 1⟩
      ∧ (SaveMyBaseInfo (sampleEnv netAllOk []) (sampleWorld [111, 108, 100])).2.state.config
          = ⟨"UA", "session"⟩
      ∧ (SaveMyBaseInfo (sampleEnv netAllOk []) (sampleWorld [111, 108, 100])).2.outputFile
          = some [123, 125]) :=
  ⟨(SaveMyBaseInfo_error_memory
      { sampleEnv netAllOk [] with writeFile := fun _ => some "disk full" }
      (sampleWorld [111, 108, 100])).2.2.2.1 ⟨200, [111, 107]⟩ [123, 125] "disk full"
      (by decide) rfl rfl rfl,
    (SaveMyBaseInfo_error_memory (sampleEnv (netFailAt 0) [])
      (sampleWorld [111, 108, 100])).2.1 "timeout" (by decide) rfl,
    (SaveMyBaseInfo_error_memory (sampleEnv netAllOk [])
      (sampleWorld [111, 108, 100])).2.2.2.2 ⟨200, [111, 107]⟩ [123, 125]
      (by decide) rfl rfl rfl⟩

/-- C17 (counterexample): the user info is fetched and encoded, the file write
fails ("disk full"); `SaveMyBaseInfo` returns an error, yet the in-memory
snapshot "old" has been replaced and the fetch time has moved. -/
theorem SaveMyBaseInfo_write_failure_counterexample :
    (SaveMyBaseInfo { sampleEnv netAllOk [] with writeFile := fun _ => some "disk full" }
        (sampleWorld [111, 108, 100])).1 = some "保存响应失败: disk full"
      ∧ (sampleWorld [111, 108, 100]).state.responseData = [111, 108, 100]
      ∧ (SaveMyBaseInfo { sampleEnv netAllOk [] with writeFile := fun _ => some "disk full" }
        (sampleWorld [111, 108, 100])).2.state.responseData = [123, 125]
      ∧ (sampleWorld [111, 108, 100]).state.lastFetchAt = Time.zero
      ∧ (SaveMyBaseInfo { sampleEnv netAllOk [] with writeFile := fun _ => some "disk full" }
        (sampleWorld [111, 108, 100])).2.state.lastFetchAt = ⟨2025, 1, 1⟩ := by
  refine ⟨?_, ?_, ?_, ?_, ?_⟩ <;> decide

/-- C18: after every successful `SaveMyBaseInfo` the snapshot file holds exactly
the in-memory snapshot bytes, and `HasData` reports true (`sonic.Marshal` never
yields an empty encoding). -/
theorem SaveMyBaseInfo_success_consistent (env : Env) (w : World)
    (hjson : ∀ v b, env.marshalUserInfoResp v = .ok b → b ≠ [])
    (hok : (SaveMyBaseInfo env w).1 = none) :
    (SaveMyBaseInfo env w).2.outputFile = some (SaveMyBaseInfo env w).2.state.responseData
      ∧ HasData (SaveMyBaseInfo env w).2.state = true := by
  rcases SaveMyBaseInfo_cases env w with ⟨_, h1, _⟩ | ⟨_, _, _, _, h3, _⟩
    | ⟨b, _, ⟨v, hv⟩, _, h4, _, h6⟩
  · rw [h1] at hok
    exact Option.noConfusion hok
  · rw [h3] at hok
    exact Option.noConfusion hok
  · refine ⟨by rw [h6, h4], ?_⟩
    unfold HasData
    rw [h4]
    have hb := hjson v b hv
    simp only [gt_iff_lt, decide_eq_true_eq]
    exact List.length_pos.mpr hb

/-- C18 (witness): a successful fetch on the sample world leaves the same two
bytes in memory and in the file. -/
theorem SaveMyBaseInfo_success_consistent_witness :
    (SaveMyBaseInfo (sampleEnv netAllOk []) (sampleWorld [])).2.outputFile
        = some (SaveMyBaseInfo (sampleEnv netAllOk []) (sampleWorld [])).2.state.responseData
      ∧ HasData (SaveMyBaseInfo (sampleEnv netAllOk []) (sampleWorld [])).2.state = true :=
  SaveMyBaseInfo_success_consistent (sampleEnv netAllOk []) (sampleWorld [])
    (fun _ b h => by
      have hb : b = [123, 125] := (Except.ok.inj h).symm
      rw [hb]
      decide)
    (by decide)

/-! ## `Load` -/

/-- C19: `Load` sets the default user-agent and an empty cookie when the config
file is missing and when its content does not decode; in the missing-file case
it then saves the default config (one write of its encoding to the config
file), in the malformed case it writes nothing; for a file that decodes the
config is the decoded one. -/
theorem Load_cases (env : Env) (unmarshalConfig : Bytes → Config → Config × GoError)
    (w : World) :
    (w.configFile = none →
        (Load env unmarshalConfig w).state.config = defaultConfig
        ∧ Load env unmarshalConfig w
            = (saveUnsafe env { w with state := { w.state with config := defaultConfig } }).2
        ∧ ∀ data, env.marshalIndentConfig defaultConfig = .ok data →
            (Load env unmarshalConfig w).writes = w.writes + 1
            ∧ (env.writeFile w.writes = none →
                (Load env unmarshalConfig w).configFile = some data))
      ∧ (∀ data e, w.configFile = some data →
          (unmarshalConfig data w.state.config).2 = some e →
          (Load env unmarshalConfig w).state.config = defaultConfig
          ∧ (Load env unmarshalConfig w).writes = w.writes
          ∧ (Load env unmarshalConfig w).configFile = w.configFile)
      ∧ (∀ data, w.configFile = some data →
          (unmarshalConfig data w.state.config).2 = none →
          (Load env unmarshalConfig w).state.config = (unmarshalConfig data w.state.config).1
          ∧ (Load env unmarshalConfig w).writes = w.writes
          ∧ (Load env unmarshalConfig w).configFile = w.configFile)
      ∧ defaultConfig.Cookie = ""
      ∧ defaultConfig.UserAgent = defaultUserAgent := by
  refine ⟨?_, ?_, ?_, rfl, rfl⟩
  · intro hf
    have hrun : Load env unmarshalConfig w
        = (saveUnsafe env { w with state := { w.state with config := defaultConfig } }).2 := by
      unfold Load
      simp only [hf]
    refine ⟨?_, hrun, ?_⟩
    · rw [hrun]
      have := Save_state env { w with state := { w.state with config := defaultConfig } }
      unfold Save at this
      rw [this]
    · intro data hm
      rw [hrun]
      unfold saveUnsafe
      simp only [hm]
      unfold osWriteFile
      cases hw : env.writeFile w.writes with
      | some e => simp
      | none => simp
  · intro data e hf hd
    unfold Load
    simp only [hf, hd]
    simp
  · intro data hf hd
    unfold Load
    simp only [hf, hd]
    simp

/-- C19 (witness): no config file: the default config is set and written; a
config file that does not decode: the default config is set and nothing is
written; a config file that decodes: the decoded config is set. -/
theorem Load_cases_witness :
    ((Load (sampleEnv netAllOk []) (fun _ c => (c, some "invalid character"))
        (sampleWorld [])).state.config = defaultConfig
      ∧ (Load (sampleEnv netAllOk []) (fun _ c => (c, some "invalid character"))
        (sampleWorld [])).configFile = some [123, 125])
    ∧ ((Load (sampleEnv netAllOk []) (fun _ c => (c, some "invalid character"))
        { sampleWorld [] with configFile := some [120] }).state.config = defaultConfig
      ∧ (Load (sampleEnv netAllOk []) (fun _ c => (c, some "invalid character"))
        { sampleWorld [] with configFile := some [120] }).writes = 0)
    ∧ (Load (sampleEnv netAllOk []) (fun _ _ => (⟨"ua", "ck"⟩, none))
        { sampleWorld [] with configFile := some [123, 125] }).state.config = ⟨"ua", "ck"⟩ :=
  ⟨⟨((Load_cases (sampleEnv netAllOk []) (fun _ c => (c, some "invalid character"))
        (sampleWorld [])).1 rfl).1,
      (((Load_cases (sampleEnv netAllOk []) (fun _ c => (c, some "invalid character"))
        (sampleWorld [])).1 rfl).2.2 [123, 125] rfl).2 rfl⟩,
    ⟨((Load_cases (sampleEnv netAllOk []) (fun _ c => (c, some "invalid character"))
        { sampleWorld [] with configFile := some [120] }).2.1 [120] "invalid character"
        rfl rfl).1,
      ((Load_cases (sampleEnv netAllOk []) (fun _ c => (c, some "invalid character"))
        { sampleWorld [] with configFile := some [120] }).2.1 [120] "invalid character"
        rfl rfl).2.1⟩,
    ((Load_cases (sampleEnv netAllOk []) (fun _ _ => (⟨"ua", "ck"⟩, none))
      { sampleWorld [] with configFile := some [123, 125] }).2.2.1 [123, 125] rfl rfl).1⟩


/-! ## The response envelope -/

theorem consistent_success (msg : String) (data : Option Payload) :
    (Reply.json StatusOK (NewSuccess msg data)).Consistent :=
  Or.inl ⟨rfl, rfl⟩

theorem consistent_400 (msg : String) :
    (Reply.json StatusBadRequest (NewError 400 msg)).Consistent :=
  Or.inr ⟨Or.inl rfl, rfl, rfl⟩

theorem consistent_404 (msg : String) :
    (Reply.json StatusNotFound (NewError 404 msg)).Consistent :=
  Or.inr ⟨Or.inr (Or.inl rfl), rfl, rfl⟩

theorem consistent_500 (msg : String) :
    (Reply.json StatusInternalServerError (NewError 500 msg)).Consistent :=
  Or.inr ⟨Or.inr (Or.inr rfl), rfl, rfl⟩

/-- C20: `NewSuccess` builds an envelope with code 10000 and the given message and
data, `NewError` one with the given code and message and no data; and whatever
the inputs and the world, every JSON reply of the handlers is a success with
status 200 and code 10000 or an error whose envelope code equals its HTTP
status, one of 400, 404 and 500; three error replies are evaluated on sample
worlds. -/
theorem envelope_codes (henv : HandlerEnv) (env : Env) (w : World) (idStr msg : String)
    (body : Bytes) (data : Option Payload) (code : Int) :
    NewSuccess msg data = { Code := 10000, Msg := msg, Data := data }
      ∧ NewError code msg = { Code := code, Msg := msg, Data := none }
      ∧ (Handler.GetFFInfo env w).1.Consistent
      ∧ (Handler.GetSignReward env idStr w).1.Consistent
      ∧ (Handler.SignRewardList env w).1.Consistent
      ∧ (Handler.SignAndGetSignReward henv env w).1.Consistent
      ∧ (Handler.GetStatus henv w).1.Consistent
      ∧ (Handler.Refresh w).1.Consistent
      ∧ (Handler.SignIn henv env w).1.Consistent
      ∧ (Handler.GetConfig w).1.Consistent
      ∧ (Handler.UpdateConfig henv env body w).1.Consistent
      ∧ (Handler.GetFFInfo (sampleEnv netAllOk []) (sampleWorld [])).1
          = .json 404 ⟨404, "数据尚未获取，请先配置Cookie后刷新", none⟩
      ∧ (Handler.GetSignReward (sampleEnv netAllOk []) "x1" (sampleWorld [])).1
          = .json 400 ⟨400, "错误的请求参数", none⟩
      ∧ (Handler.SignIn sampleHandlerEnv (sampleEnv (netFailAt 0) []) (sampleWorld [])).1
          = .json 500 ⟨500, "打卡失败: 请求失败: timeout", none⟩ := by
  refine ⟨rfl, rfl, ?_, ?_, ?_, ?_, ?_, ?_, ?_, ?_, ?_, by decide, by decide, by decide⟩
  · unfold Handler.GetFFInfo
    split
    · exact trivial
    · exact consistent_404 _
    · exact consistent_success _ _
  · unfold Handler.GetSignReward
    simp only []
    split
    · exact consistent_400 _
    · split
      · exact consistent_500 _
      · exact consistent_success _ _
  · unfold Handler.SignRewardList
    simp only []
    split
    · exact consistent_500 _
    · exact consistent_success _ _
  · unfold Handler.SignAndGetSignReward
    simp only []
    split
    · exact consistent_500 _
    · split
      · exact consistent_500 _
      · exact consistent_success _ _
  · exact Or.inl ⟨rfl, rfl⟩
  · unfold Handler.Refresh
    split
    · exact consistent_400 _
    · exact consistent_success _ _
  · unfold Handler.SignIn
    split
    · exact consistent_400 _
    · simp only []
      split
      · exact consistent_500 _
      · split
        · exact consistent_500 _
        · exact consistent_success _ _
  · exact consistent_success _ _
  · unfold Handler.UpdateConfig
    split
    · exact consistent_400 _
    · simp only []
      split
      · exact consistent_500 _
      · exact consistent_success _ _


/-! ## The scheduler loops -/

theorem startScheduler_append (env : Env) :
    ∀ (a b : List Job) (w : World),
      startScheduler env (a ++ b) w =
        ((startScheduler env a w).1 ++ (startScheduler env b (startScheduler env a w).2).1,
          (startScheduler env b (startScheduler env a w).2).2) := by
  intro a
  induction a with
  | nil => intro b w; rfl
  | cons j a ih =>
    intro b w
    have h := ih b (runJob env j w).2
    show ((j, (runJob env j w).1) :: (startScheduler env (a ++ b) (runJob env j w).2).1,
        (startScheduler env (a ++ b) (runJob env j w).2).2) = _
    rw [h]
    rfl

theorem startScheduler_jobs (env : Env) :
    ∀ (ticks : List Job) (w : World), (startScheduler env ticks w).1.map Prod.fst = ticks := by
  intro ticks
  induction ticks with
  | nil => intro w; rfl
  | cons j rest ih =>
    intro w
    simp only [startScheduler, List.map_cons]
    rw [ih]

/-- C21: in the scheduler every tick invokes the operation of its loop
(`SaveMyBaseInfo` or `SignAndGetSignReward`) whatever the earlier ticks of
either loop returned: the invocations are the ticks, one for one and in order,
and the tick that follows any run of ticks `pre` runs its operation in the world
`pre` left, after which the later ticks run as well.  On a network whose first
two requests fail, a failed fetch tick and a failed sign-in tick are followed
by a fetch tick and a sign-in tick that both run and succeed. -/
theorem scheduler_continues (env : Env) (pre post : List Job) (job : Job) (w : World) :
    runJob env Job.fetchBaseInfo w = SaveMyBaseInfo env w
      ∧ runJob env Job.dailySign w
          = ((SignAndGetSignReward env w).1.2, (SignAndGetSignReward env w).2)
      ∧ (startScheduler env (pre ++ job :: post) w).1.map Prod.fst = pre ++ job :: post
      ∧ startScheduler env (pre ++ job :: post) w =
          ((startScheduler env pre w).1
              ++ (job, (runJob env job (startScheduler env pre w).2).1)
                :: (startScheduler env post (runJob env job (startScheduler env pre w).2).2).1,
            (startScheduler env post (runJob env job (startScheduler env pre w).2).2).2)
      ∧ (startScheduler
            (sampleEnv (fun n => if n < 2 then .error "timeout" else .ok ⟨200, [111, 107]⟩)
              [sampleReward 1 "item1" 0])
            [Job.fetchBaseInfo, Job.dailySign, Job.fetchBaseInfo, Job.dailySign]
            (sampleWorld [])).1
          = [(Job.fetchBaseInfo, some "获取数据失败: 请求失败: timeout"),
             (Job.dailySign, some "请求失败: timeout"),
             (Job.fetchBaseInfo, none),
             (Job.dailySign, none)]
      ∧ (startScheduler
            (sampleEnv (fun n => if n < 2 then .error "timeout" else .ok ⟨200, [111, 107]⟩)
              [sampleReward 1 "item1" 0])
            [Job.fetchBaseInfo, Job.dailySign, Job.fetchBaseInfo, Job.dailySign]
            (sampleWorld [])).2.sent.length = 6 := by
  refine ⟨rfl, rfl, startScheduler_jobs env _ w, ?_, by decide, by decide⟩
  rw [startScheduler_append]
  rfl

/-! ## `ParseFFInfo` on an empty character list -/

/-- C22 (what the code does): when the snapshot decodes without error, `ParseFFInfo`
returns the character name and the play time of the first character detail if
the decoded list has one, and crashes with an index out of range if the list is
empty. -/
theorem ParseFFInfo_empty_detail (env : Env) (w : World) (v : UserInfoResp)
    (hmem : w.state.responseData ≠ [])
    (hdecode : env.unmarshalUserInfoResp w.state.responseData = (v, none)) :
    (v.Data.CharacterDetail = [] →
        ParseFFInfo env w = .crashed "index out of range [0] with length 0")
      ∧ (∀ detail rest, v.Data.CharacterDetail = detail :: rest →
        ParseFFInfo env w
          = .done (some { CharacterName := v.Data.CharacterName,
                          PlayTime := ParsePlayTimeToMinutes detail.PlayTime }, none)) := by
  have hl : w.state.responseData.length ≠ 0 := fun hl => hmem (List.length_eq_zero.mp hl)
  have hrun : ParseFFInfo env w = parseSnapshot env w.state.responseData := by
    unfold ParseFFInfo GetResponseData
    simp only [if_neg hl]
  constructor
  · intro h
    rw [hrun]
    unfold parseSnapshot
    simp only [hdecode, h]
  · intro detail rest h
    rw [hrun]
    unfold parseSnapshot
    simp only [hdecode, h]

/-- C22 (witness): the snapshot decodes to a response without character details
(the zero struct); `ParseFFInfo` crashes, and the handler `GetFFInfo` is cut off
by the recovery middleware with status 500. -/
theorem ParseFFInfo_empty_detail_witness :
    ParseFFInfo
        { sampleEnv netAllOk [] with unmarshalUserInfoResp := fun _ => (UserInfoResp.zero, none) }
        (sampleWorld [123, 125])
      = .crashed "index out of range [0] with length 0"
    ∧ (Handler.GetFFInfo
        { sampleEnv netAllOk [] with unmarshalUserInfoResp := fun _ => (UserInfoResp.zero, none) }
        (sampleWorld [123, 125])).1 = .aborted 500 :=
  ⟨(ParseFFInfo_empty_detail
      { sampleEnv netAllOk [] with unmarshalUserInfoResp := fun _ => (UserInfoResp.zero, none) }
      (sampleWorld [123, 125]) UserInfoResp.zero (by decide) rfl).1 rfl,
    by decide⟩


/-! ## The summary of a successful `SignAndGetSignReward` -/

theorem claimLoop_no_error (env : Env) :
    ∀ (rs : List Reward) (u a c s f : List String) (w : World),
      (claimLoop env rs
          [("unavailable", u), ("available", a), ("claimed", c), ("success", s), ("fail", f)]
          w).1.2 = none →
      (claimLoop env rs
          [("unavailable", u), ("available", a), ("claimed", c), ("success", s), ("fail", f)]
          w).1.1
        = [("unavailable", u ++ namesWhere (fun g => decide (g ≠ 0 ∧ g ≠ 1)) rs),
           ("available", a ++ namesWhere (fun g => decide (g = 0)) rs),
           ("claimed", c ++ namesWhere (fun g => decide (g = 1)) rs),
           ("success", s ++ namesWhere (fun g => decide (g = 0)) rs),
           ("fail", f)] := by
  intro rs
  induction rs with
  | nil => intro u a c s f w _; simp [claimLoop, namesWhere]
  | cons r rs ih =>
    intro u a c s f w h
    unfold claimLoop at h ⊢
    by_cases h0 : r.IsGet = 0
    · rw [if_pos h0] at h ⊢
      cases hg : (GetSignReward env r.ID w).1.2 with
      | some err =>
        simp only [hg] at h
        exact Option.noConfusion h
      | none =>
        simp only [hg, mapAppend_available, mapAppend_success] at h ⊢
        rw [ih _ _ _ _ _ _ h]
        simp [namesWhere, h0]
    · by_cases h1 : r.IsGet = 1
      · rw [if_neg h0, if_pos h1, mapAppend_claimed] at h ⊢
        rw [ih _ _ _ _ _ _ h]
        simp [namesWhere, h1]
      · rw [if_neg h0, if_neg h1, mapAppend_unavailable] at h ⊢
        rw [ih _ _ _ _ _ _ h]
        simp [namesWhere, h0, h1]

theorem names_partition :
    ∀ rs : List Reward,
      (namesWhere (fun g => decide (g = 0)) rs ++ namesWhere (fun g => decide (g = 1)) rs
          ++ namesWhere (fun g => decide (g ≠ 0 ∧ g ≠ 1)) rs).Perm
        (rs.map (fun r => r.ItemName)) := by
  intro rs
  induction rs with
  | nil => simp [namesWhere]
  | cons r rs ih =>
    by_cases h0 : r.IsGet = 0
    · have e1 : namesWhere (fun g => decide (g = 0)) (r :: rs)
          = r.ItemName :: namesWhere (fun g => decide (g = 0)) rs := by
        simp [namesWhere, h0]
      have e2 : namesWhere (fun g => decide (g = 1)) (r :: rs)
          = namesWhere (fun g => decide (g = 1)) rs := by
        simp [namesWhere, h0]
      have e3 : namesWhere (fun g => decide (g ≠ 0 ∧ g ≠ 1)) (r :: rs)
          = namesWhere (fun g => decide (g ≠ 0 ∧ g ≠ 1)) rs := by
        simp [namesWhere, h0]
      rw [e1, e2, e3, List.map_cons, List.cons_append, List.cons_append]
      exact List.Perm.cons _ ih
    · by_cases h1 : r.IsGet = 1
      · have e1 : namesWhere (fun g => decide (g = 0)) (r :: rs)
            = namesWhere (fun g => decide (g = 0)) rs := by
          simp [namesWhere, h0]
        have e2 : namesWhere (fun g => decide (g = 1)) (r :: rs)
            = r.ItemName :: namesWhere (fun g => decide (g = 1)) rs := by
          simp [namesWhere, h1]
        have e3 : namesWhere (fun g => decide (g ≠ 0 ∧ g ≠ 1)) (r :: rs)
            = namesWhere (fun g => decide (g ≠ 0 ∧ g ≠ 1)) rs := by
          simp [namesWhere, h1]
        rw [e1, e2, e3, List.map_cons, List.append_assoc, List.cons_append]
        refine List.Perm.trans List.perm_middle (List.Perm.cons _ ?_)
        rw [← List.append_assoc]
        exact ih
      · have e1 : namesWhere (fun g => decide (g = 0)) (r :: rs)
            = namesWhere (fun g => decide (g = 0)) rs := by
          simp [namesWhere, h0]
        have e2 : namesWhere (fun g => decide (g = 1)) (r :: rs)
            = namesWhere (fun g => decide (g = 1)) rs := by
          simp [namesWhere, h1]
        have e3 : namesWhere (fun g => decide (g ≠ 0 ∧ g ≠ 1)) (r :: rs)
            = r.ItemName :: namesWhere (fun g => decide (g ≠ 0 ∧ g ≠ 1)) rs := by
          simp [namesWhere, h0, h1]
        rw [e1, e2, e3, List.map_cons]
        exact List.Perm.trans List.perm_middle (List.Perm.cons _ ih)

theorem namesWhere_sublist (p : Int → Bool) (rs : List Reward) :
    (namesWhere p rs).Sublist (rs.map (fun r => r.ItemName)) := by
  unfold namesWhere
  exact List.Sublist.map _ (List.filter_sublist rs)

/-- C23: whenever `SignAndGetSignReward` returns a summary and no error, the
summary is the five-bucket map built from the decoded reward list: `fail` is
empty, `success` equals `available`, and `available`, `claimed` and
`unavailable` are the item names of the rewards with `IsGet` 0, 1 and anything
else, each in list order and together holding every reward's item name exactly
once per reward. -/
theorem SignAndGetSignReward_summary_invariant (env : Env) (w : World) (m : RespMap)
    (h : (SignAndGetSignReward env w).1 = (some m, none)) :
    ∃ (rewardsBody : SignInRewards) (unavailable available claimed : List String),
      (SignRewardList env (SignIn env w).2).1 = (some rewardsBody, none)
      ∧ m = [("unavailable", unavailable), ("available", available), ("claimed", claimed),
             ("success", available), ("fail", [])]
      ∧ available = namesWhere (fun g => decide (g = 0)) rewardsBody.Data
      ∧ claimed = namesWhere (fun g => decide (g = 1)) rewardsBody.Data
      ∧ unavailable = namesWhere (fun g => decide (g ≠ 0 ∧ g ≠ 1)) rewardsBody.Data
      ∧ (available ++ claimed ++ unavailable).Perm
          (rewardsBody.Data.map (fun r => r.ItemName))
      ∧ available.Sublist (rewardsBody.Data.map (fun r => r.ItemName))
      ∧ claimed.Sublist (rewardsBody.Data.map (fun r => r.ItemName))
      ∧ unavailable.Sublist (rewardsBody.Data.map (fun r => r.ItemName)) := by
  unfold SignAndGetSignReward at h
  cases h1 : (SignIn env w).1.2 with
  | some err =>
    simp only [h1] at h
    exact absurd (congrArg Prod.fst h) (by simp)
  | none =>
    simp only [h1] at h
    rcases hl : (SignRewardList env (SignIn env w).2).1 with ⟨a, b⟩
    cases b with
    | some err =>
      cases a <;>
        (simp only [hl] at h
         exact absurd (congrArg Prod.fst h) (by simp))
    | none =>
      cases a with
      | none =>
        simp only [hl] at h
        exact absurd (congrArg Prod.fst h) (by simp)
      | some rewardsBody =>
        simp only [hl] at h
        cases hc : (claimLoop env rewardsBody.Data emptyRespMap
            (SignRewardList env (SignIn env w).2).2).1.2 with
        | some err =>
          simp only [hc] at h
          exact absurd (congrArg Prod.fst h) (by simp)
        | none =>
          simp only [hc] at h
          have hm := claimLoop_no_error env rewardsBody.Data [] [] [] [] []
            (SignRewardList env (SignIn env w).2).2 hc
          have hm2 : m = (claimLoop env rewardsBody.Data emptyRespMap
              (SignRewardList env (SignIn env w).2).2).1.1 := by
            have := congrArg Prod.fst h
            simp only [Option.some.injEq] at this
            exact this.symm
          refine ⟨rewardsBody, _, _, _, rfl, ?_, rfl, rfl, rfl, names_partition _,
            namesWhere_sublist _ _, namesWhere_sublist _ _, namesWhere_sublist _ _⟩
          rw [hm2]
          unfold emptyRespMap
          rw [hm]
          simp only [List.nil_append]

/-- C23 (witness): the run of the three-reward example returns a summary, so its
buckets are the three filters of the reward list. -/
theorem SignAndGetSignReward_summary_invariant_witness :
    ∃ (rewardsBody : SignInRewards) (unavailable available claimed : List String),
      (SignRewardList
          (sampleEnv netAllOk
            [sampleReward 1 "item1" 0, sampleReward 2 "item2" 1, sampleReward 3 "item3" 2])
          (SignIn
            (sampleEnv netAllOk
              [sampleReward 1 "item1" 0, sampleReward 2 "item2" 1, sampleReward 3 "item3" 2])
            (sampleWorld [])).2).1 = (some rewardsBody, none)
      ∧ [("unavailable", ["item3"]), ("available", ["item1"]), ("claimed", ["item2"]),
          ("success", ["item1"]), ("fail", [])]
        = [("unavailable", unavailable), ("available", available), ("claimed", claimed),
             ("success", available), ("fail", [])]
      ∧ available = namesWhere (fun g => decide (g = 0)) rewardsBody.Data
      ∧ claimed = namesWhere (fun g => decide (g = 1)) rewardsBody.Data
      ∧ unavailable = namesWhere (fun g => decide (g ≠ 0 ∧ g ≠ 1)) rewardsBody.Data
      ∧ (available ++ claimed ++ unavailable).Perm
          (rewardsBody.Data.map (fun r => r.ItemName))
      ∧ available.Sublist (rewardsBody.Data.map (fun r => r.ItemName))
      ∧ claimed.Sublist (rewardsBody.Data.map (fun r => r.ItemName))
      ∧ unavailable.Sublist (rewardsBody.Data.map (fun r => r.ItemName)) :=
  SignAndGetSignReward_summary_invariant
    (sampleEnv netAllOk
      [sampleReward 1 "item1" 0, sampleReward 2 "item2" 1, sampleReward 3 "item3" 2])
    (sampleWorld [])
    [("unavailable", ["item3"]), ("available", ["item1"]), ("claimed", ["item2"]),
      ("success", ["item1"]), ("fail", [])]
    (by decide)


/-! ## Invariants of the shared state -/

theorem SetConfig_config (env : Env) (cfg : Config) (w : World) :
    (SetConfig env cfg w).2.state.config =
      { UserAgent := if cfg.UserAgent ≠ "" then cfg.UserAgent else w.state.config.UserAgent,
        Cookie := if cfg.Cookie ≠ "" then cfg.Cookie else w.state.config.Cookie } := by
  unfold SetConfig
  rw [Save_state]
  by_cases h1 : cfg.UserAgent = "" <;> by_cases h2 : cfg.Cookie = "" <;> simp [h1, h2]

theorem SetConfig_keeps_cookie (env : Env) (cfg : Config) (w : World)
    (h : HasCookie w.state = true) : HasCookie (SetConfig env cfg w).2.state = true := by
  unfold HasCookie at h ⊢
  rw [SetConfig_config]
  simp only [decide_eq_true_eq] at h ⊢
  by_cases h2 : cfg.Cookie = ""
  · simpa [h2] using h
  · simp [h2]

theorem SetConfig_keeps_userAgent (env : Env) (cfg : Config) (w : World)
    (h : w.state.config.UserAgent ≠ "") :
    (SetConfig env cfg w).2.state.config.UserAgent ≠ "" := by
  rw [SetConfig_config]
  by_cases h1 : cfg.UserAgent = ""
  · simpa [h1] using h
  · simp [h1]

/-- C24: `SetConfig` cannot clear a cookie or a user-agent: a cookie that is set
before `SetConfig cfg` is set afterwards for every `cfg`, and so after any
sequence of `SetConfig` calls; the same holds for a non-empty user-agent; and
after `SetConfig cfg` with a non-empty `cfg.Cookie`, `HasCookie` is true. -/
theorem SetConfig_never_clears (env : Env) (cfg : Config) (cfgs : List Config) (w : World) :
    (HasCookie w.state = true → HasCookie (SetConfig env cfg w).2.state = true)
      ∧ (w.state.config.UserAgent ≠ "" → (SetConfig env cfg w).2.state.config.UserAgent ≠ "")
      ∧ (cfg.Cookie ≠ "" → HasCookie (SetConfig env cfg w).2.state = true)
      ∧ (HasCookie w.state = true → HasCookie (setConfigs env cfgs w).state = true)
      ∧ (w.state.config.UserAgent ≠ "" → (setConfigs env cfgs w).state.config.UserAgent ≠ "")
      := by
  refine ⟨SetConfig_keeps_cookie env cfg w, SetConfig_keeps_userAgent env cfg w, ?_, ?_, ?_⟩
  · intro h
    unfold HasCookie
    rw [SetConfig_config]
    simp [h]
  · intro h
    induction cfgs generalizing w with
    | nil => exact h
    | cons c rest ih =>
      unfold setConfigs
      exact ih (SetConfig env c w).2 (SetConfig_keeps_cookie env c w h)
  · intro h
    induction cfgs generalizing w with
    | nil => exact h
    | cons c rest ih =>
      unfold setConfigs
      exact ih (SetConfig env c w).2 (SetConfig_keeps_userAgent env c w h)

/-- C24 (witness): on the sample world, whose cookie is "session", an update with
an empty cookie keeps it, an update with a new cookie replaces it, and after
both updates followed by an empty one a cookie is still set. -/
theorem SetConfig_never_clears_witness :
    HasCookie (SetConfig (sampleEnv netAllOk []) ⟨"", ""⟩ (sampleWorld [])).2.state = true
      ∧ HasCookie (SetConfig (sampleEnv netAllOk []) ⟨"", "new"⟩ (sampleWorld [])).2.state = true
      ∧ HasCookie (setConfigs (sampleEnv netAllOk []) [⟨"", ""⟩, ⟨"x", "new"⟩, ⟨"", ""⟩]
          (sampleWorld [])).state = true
      ∧ (setConfigs (sampleEnv netAllOk []) [⟨"", ""⟩, ⟨"x", "new"⟩, ⟨"", ""⟩]
          (sampleWorld [])).state.config = ⟨"x", "new"⟩ :=
  ⟨(SetConfig_never_clears (sampleEnv netAllOk []) ⟨"", ""⟩ [] (sampleWorld [])).1 (by decide),
    (SetConfig_never_clears (sampleEnv netAllOk []) ⟨"", "new"⟩ [] (sampleWorld [])).2.2.1
      (by decide),
    (SetConfig_never_clears (sampleEnv netAllOk []) ⟨"", ""⟩
      [⟨"", ""⟩, ⟨"x", "new"⟩, ⟨"", ""⟩] (sampleWorld [])).2.2.2.1 (by decide),
    by decide⟩

/-- C25: `SetConfig` leaves the cached snapshot bytes and the last-fetch time as
they were; `SetResponseData` makes the snapshot exactly its argument, whatever
the previous bytes, stamps it with the current time and leaves the user-agent
and the cookie as they were. -/
theorem state_parts_independent (env : Env) (cfg : Config) (data : Bytes) (w : World) :
    (SetConfig env cfg w).2.state.responseData = w.state.responseData
      ∧ (SetConfig env cfg w).2.state.lastFetchAt = w.state.lastFetchAt
      ∧ (SetResponseData env data w).state.responseData = data
      ∧ (SetResponseData env data w).state.lastFetchAt = env.now w.clockReads
      ∧ (SetResponseData env data w).state.config = w.state.config
      ∧ (SetResponseData env data w).state.config.UserAgent = w.state.config.UserAgent
      ∧ (SetResponseData env data w).state.config.Cookie = w.state.config.Cookie
      ∧ (SetResponseData (sampleEnv netAllOk []) [110, 101, 119]
          (sampleWorld [111, 108, 100])).state = ⟨⟨"UA", "session"⟩, [110, 101, 119], ⟨2025, 1, 1⟩⟩
      ∧ (SetConfig (sampleEnv netAllOk []) ⟨"ua2", "ck2"⟩
          (sampleWorld [111, 108, 100])).2.state = ⟨⟨"ua2", "ck2"⟩, [111, 108, 100], Time.zero⟩
      := by
  have hs : (SetConfig env cfg w).2.state
      = { w.state with config := (SetConfig env cfg w).2.state.config } := by
    unfold SetConfig
    rw [Save_state]
  refine ⟨?_, ?_, rfl, rfl, rfl, rfl, rfl, by decide, by decide⟩
  · rw [hs]
  · rw [hs]


end Llmaget
